import Mathlib

/-!
# ChainBridge, Klaytn chain adapter

A shallow embedding of

* `shared/klaytn/events.go` and `shared/klaytn/hash.go` (event signatures, topic hashes,
  proposal status queries), and
* `chains/klaytn/chain.go` (`setupBlockstore`, `InitializeChain`, `Chain.SetRouter`,
  `Chain.Start`, `Chain.Id`, `Chain.Name`, `Chain.Stop`).

Functions that `chain.go` calls but that are declared in other packages or files (the
blockstore, the keystore, the connection, the listener, the writer, the router)
are taken as parameters, collected in the structure `Deps`; Keccak-256 is written out.
-/

set_option autoImplicit false

namespace ChainBridge

/-! ## shared/klaytn : events.go, hash.go -/

/-- One Go `byte`. -/
abbrev Byte := Fin 256

/-- Go `type EventSig string`: a Go string is an immutable sequence of bytes, and
`[]byte(es)` is that sequence. -/
abbrev EventSig := List Byte

/-- The bytes of an ASCII string literal. -/
def ascii (s : String) : List Byte := s.toList.map (fun ch => Fin.ofNat ch.toNat)

/-! ### Keccak-256

`crypto.Keccak256Hash` belongs to the external package `klaytn/crypto`. The definitions of
this subsection give the hash it computes: the Keccak sponge over the permutation
Keccak-f[1600], with a rate of 136 bytes, the padding `0x01 0x00 ... 0x00 0x80` and an output
of 32 bytes. The state is a list of 25 lanes of 64 bits, lane `(x, y)` at index `x + 5 * y`. -/

/-- The 64-bit word with every bit set. -/
def mask64 : Nat := 2 ^ 64 - 1

/-- Rotation of a 64-bit word to the left by `n` bits, `n < 64`. -/
def rotl64 (x n : Nat) : Nat :=
  ((x <<< n) % 2 ^ 64) ||| (x >>> (64 - n))

/-- One step of the 8-bit linear feedback shift register that generates the round
constants: a shift to the left, with feedback `0x71` when the top bit falls out. -/
def lfsrStep (r : Nat) : Nat :=
  if r / 128 % 2 = 1 then ((2 * r) % 256) ^^^ 0x71 else 2 * r

/-- The register after `t` steps, started at 1. -/
def lfsr : Nat → Nat
  | 0 => 1
  | t + 1 => lfsrStep (lfsr t)

/-- The constant of round `i`: its bit `2 ^ j - 1`, for `j < 7`, is the low bit of the
register after `7 * i + j` steps. -/
def roundConstant (i : Nat) : Nat :=
  ((List.range 7).map (fun j => (lfsr (7 * i + j) % 2) * 2 ^ (2 ^ j - 1))).sum

/-- The 24 round constants of Keccak-f[1600]. -/
def roundConstants : List Nat := (List.range 24).map roundConstant

/-- The path of step pi: it starts at lane `(1, 0)` and goes from `(x, y)` to
`(y, 2 * x + 3 * y)`, visiting every lane but `(0, 0)` in 24 steps. -/
def piPath : Nat → Nat × Nat
  | 0 => (1, 0)
  | t + 1 =>
    match piPath t with
    | (x, y) => (y, (2 * x + 3 * y) % 5)

/-- The rotation offset of lane `(x, y)`: `(t + 1) * (t + 2) / 2` modulo 64 for the lane
at position `t` of the path, and 0 for lane `(0, 0)`. -/
def rotationOffset (x y : Nat) : Nat :=
  (((List.range 24).filter (fun t => piPath t == (x, y))).map
    (fun t => ((t + 1) * (t + 2) / 2) % 64)).sum

/-- The rotation offsets of the 25 lanes, lane `(x, y)` at index `x + 5 * y`. -/
def rotationOffsets : List Nat :=
  (List.range 25).map (fun i => rotationOffset (i % 5) (i / 5))

/-- Lane `(x, y)` of a state, coordinates taken modulo 5. -/
def lane (st : List Nat) (x y : Nat) : Nat := st.getD (x % 5 + 5 * (y % 5)) 0

/-- Step theta: every lane is xored with the parities of two neighbouring columns. -/
def theta (st : List Nat) : List Nat :=
  let c := (List.range 5).map (fun x =>
    lane st x 0 ^^^ lane st x 1 ^^^ lane st x 2 ^^^ lane st x 3 ^^^ lane st x 4)
  let dd := (List.range 5).map (fun x =>
    c.getD ((x + 4) % 5) 0 ^^^ rotl64 (c.getD ((x + 1) % 5) 0) 1)
  (List.range 25).map (fun i => st.getD i 0 ^^^ dd.getD (i % 5) 0)

/-- Steps rho and pi: lane `(x, y)`, rotated by its offset, moves to `(y, 2 * x + 3 * y)`;
so the lane at `(bx, row)` of the result comes from `(bx + 3 * row, bx)`. -/
def rhoPi (st : List Nat) : List Nat :=
  (List.range 25).map (fun i =>
    let bx := i % 5
    let row := i / 5
    let x := (bx + 3 * row) % 5
    let y := bx
    rotl64 (lane st x y) (rotationOffsets.getD (x + 5 * y) 0))

/-- Step chi: lane `(x, y)` is xored with `not (x + 1, y) and (x + 2, y)`. -/
def chi (st : List Nat) : List Nat :=
  (List.range 25).map (fun i =>
    let x := i % 5
    let y := i / 5
    lane st x y ^^^ ((lane st (x + 1) y ^^^ mask64) &&& lane st (x + 2) y))

/-- Step iota: the round constant is xored into lane `(0, 0)`. -/
def iota (rc : Nat) (st : List Nat) : List Nat :=
  (List.range 25).map (fun i => if i = 0 then st.getD 0 0 ^^^ rc else st.getD i 0)

/-- One round of Keccak-f[1600]. -/
def keccakRound (st : List Nat) (rc : Nat) : List Nat :=
  iota rc (chi (rhoPi (theta st)))

/-- The permutation Keccak-f[1600]: 24 rounds. -/
def keccakF1600 (st : List Nat) : List Nat :=
  roundConstants.foldl keccakRound st

/-- The 64-bit lane held by at most 8 bytes, least significant byte first. -/
def laneOfBytes (bs : List Byte) : Nat :=
  bs.foldr (fun b acc => b.val + 256 * acc) 0

/-- The 8 bytes of a 64-bit lane, least significant byte first. -/
def bytesOfLane (x : Nat) : List Byte :=
  (List.range 8).map (fun i => Fin.ofNat ((x >>> (8 * i)) % 256))

/-- The rate of Keccak-256 in bytes. -/
def rate : Nat := 136

/-- Keccak padding to a multiple of the rate: a byte `0x01`, zero bytes, and a last byte
`0x80` (one byte `0x81` when a single byte is missing). -/
def pad (msg : List Byte) : List Byte :=
  let q := rate - msg.length % rate
  if q = 1 then msg ++ [0x81]
  else msg ++ [0x01] ++ List.replicate (q - 2) 0 ++ [0x80]

/-- Absorb one block of `rate` bytes: xor it into the state and permute. -/
def absorbBlock (st : List Nat) (block : List Byte) : List Nat :=
  keccakF1600 ((List.range 25).map (fun i =>
    st.getD i 0 ^^^ laneOfBytes ((block.drop (8 * i)).take 8)))

/-- Absorb `n` blocks of `rate` bytes. -/
def absorb : Nat → List Nat → List Byte → List Nat
  | 0, st, _ => st
  | n + 1, st, data => absorb n (absorbBlock st (data.take rate)) (data.drop rate)

/-- Modelled from the spec: `crypto.Keccak256Hash` is declared in the external package
`klaytn/crypto`; the spec calls it the "one-way cryptographic hash" of the signature text
and the code names it Keccak-256. The result is the `common.Hash` (a `[32]byte`) as the
list of its bytes: the first four lanes of the state after absorbing the padded input. -/
def Keccak256Hash (data : List Byte) : List Byte :=
  let p := pad data
  let st := absorb (p.length / rate) (List.replicate 25 0) p
  (List.range 4).flatMap (fun i => bytesOfLane (st.getD i 0))

/-- Go `func (es EventSig) GetTopic() common.Hash` (events.go:10). -/
def EventSig.GetTopic (es : EventSig) : List Byte :=
  Keccak256Hash es

/-- Go `func Hash(data []byte) [32]byte` (hash.go:5). -/
def Hash (data : List Byte) : List Byte :=
  Keccak256Hash data

/-- Go `Deposit EventSig = "Deposit(uint8,bytes32,uint64)"` (events.go:15). -/
def Deposit : EventSig := ascii "Deposit(uint8,bytes32,uint64)"

/-- Go `ProposalEvent EventSig = "ProposalEvent(uint8,uint64,uint8,bytes32,bytes32)"`
(events.go:16). -/
def ProposalEvent : EventSig := ascii "ProposalEvent(uint8,uint64,uint8,bytes32,bytes32)"

/-- Go `ProposalVote EventSig = "ProposalVote(uint8,uint64,uint8,bytes32)"` (events.go:17). -/
def ProposalVote : EventSig := ascii "ProposalVote(uint8,uint64,uint8,bytes32)"

/-- Go `type ProposalStatus int` (events.go:20). -/
abbrev ProposalStatus := Int

/-- Go `Inactive ProposalStatus = iota` (events.go:23). -/
def Inactive : ProposalStatus := 0

/-- Go `Active` (events.go:24), iota = 1. -/
def Active : ProposalStatus := 1

/-- Go `Passed` (events.go:25), iota = 2. -/
def Passed : ProposalStatus := 2

/-- Go `Executed` (events.go:26), iota = 3. -/
def Executed : ProposalStatus := 3

/-- Go `Cancelled` (events.go:27), iota = 4. -/
def Cancelled : ProposalStatus := 4

/-- The conversion `ProposalStatus(status)` of a `uint8` held as a natural number. -/
def toProposalStatus (status : Nat) : ProposalStatus := Int.ofNat status

/-- Go `func IsActive(status uint8) bool` (events.go:30). -/
def IsActive (status : Nat) : Bool := toProposalStatus status == Active

/-- Go `func IsFinalized(status uint8) bool` (events.go:34). -/
def IsFinalized (status : Nat) : Bool := toProposalStatus status == Passed

/-- Go `func IsExecuted(status uint8) bool` (events.go:38). -/
def IsExecuted (status : Nat) : Bool := toProposalStatus status == Executed

/-! ## chains/klaytn : chain.go, data -/

/-- A non-nil Go `error`, by its message. A Go `error` result is an `Option Err`,
`none` being `nil`. -/
abbrev Err := String

/-- Go `common.Address`, a 20-byte account or contract address, read as a number. -/
abbrev Address := Nat

/-- Modelled from the spec: `utils.ZeroAddress` is declared in another file of
`shared/klaytn`; it is the address a handler is "left at" when it is not configured, the
all-zero address. -/
def ZeroAddress : Address := 0

/-- Identity of a `*blockstore.Blockstore` object. -/
abbrev Blockstore := Nat

/-- Identity of the `*connection.Connection` object built by `NewConnection`. -/
abbrev Connection := Nat

/-- Identity of a `log15.Logger`. -/
abbrev Logger := Nat

/-- A `*metrics.ChainMetrics` pointer (`none` is `nil`). -/
abbrev Metrics := Option Nat

/-- A `*big.Float`, carried through by its decimal text and never computed with here. -/
abbrev BigFloat := String

/-- A Go channel value: `none` is the nil channel, `some i` the channel allocated as
number `i`. -/
abbrev Chan := Option Nat

/-- Go `core.ChainConfig` (package `chainbridge-utils/core`). `chain.go` reads `Id`, `Name`,
`Insecure` and `LatestBlock`. -/
structure ChainConfig where
  Name : String
  Id : Nat
  Endpoint : String
  From : String
  KeystorePath : String
  Insecure : Bool
  BlockstorePath : String
  FreshStart : Bool
  LatestBlock : Bool
  Opts : List (String × String)
deriving DecidableEq, Repr

/-- The parsed `Config` of the klaytn chain (declared in config.go), with the fields
`chain.go` refers to: `id`, `blockstorePath`, `freshStart`, `startBlock` (lines 51-63),
`from`, `keystorePath` (line 76), the arguments of `NewConnection` (line 91),
`bridgeContract` (line 96), `erc20HandlerContract` (line 101) and `genericHandlerContract`
(line 108). `from` is a Lean keyword and appears as `fromAddr`. `startBlock` is a
`*big.Int`. -/
structure Config where
  id : Nat
  endpoint : String
  fromAddr : String
  keystorePath : String
  blockstorePath : String
  freshStart : Bool
  bridgeContract : Address
  erc20HandlerContract : Address
  genericHandlerContract : Address
  gasLimit : Int
  maxGasPrice : Int
  minGasPrice : Int
  gasMultiplier : BigFloat
  http : Bool
  startBlock : Int
  egsApiKey : String
  egsSpeed : String
deriving DecidableEq, Repr

/-- A `*secp256k1.Keypair` of package `pkg/klaytn/secp256k1`; `chain.go` only calls
`kp.Address()` on it. -/
structure Keypair where
  address : String
deriving DecidableEq, Repr

/-- The `crypto.Keypair` interface value returned by `keystore.KeypairFromAddress`: either a
`*secp256k1.Keypair` or a key of another type. -/
inductive KeypairI where
  | secp256k1 (kp : Keypair)
  | other
deriving DecidableEq, Repr

/-- State of an allocated channel. -/
inductive ChanState where
  | opened
  | closed
deriving DecidableEq, Repr

/-- The calls `chain.go` makes to code outside itself, and the channel operations it
performs, in the order in which they happen. -/
inductive Call where
  | parseChainConfig
  | KeypairFromAddress
  | NewBlockstore
  | TryLoadLatestBlock
  | makeChan (i : Nat)
  | NewConnection
  | Connect
  | EnsureHasBytecode (a : Address)
  | LatestBlock
  | NewListener
  | NewWriter
  | routerListen (id : Nat)
  | listenerSetRouter
  | listenerStart
  | writerStart
  | writerLogDebug (s : String)
  | closeChan (i : Nat)
  | connClose (conn : Connection)
deriving DecidableEq, Repr

/-- What the code acts on besides its own values: the allocated channels and the record of
the calls made so far. -/
structure World where
  chans : List ChanState
  calls : List Call
deriving DecidableEq, Repr

/-- Record one call. -/
def World.log (w : World) (c : Call) : World :=
  { w with calls := w.calls ++ [c] }

/-- Go `make(chan int)`: a new open channel. -/
def World.makeChan (w : World) : Chan × World :=
  (some w.chans.length,
    { chans := w.chans ++ [ChanState.opened], calls := w.calls ++ [Call.makeChan w.chans.length] })

/-- Result of running code that may panic; a panic carries the state at the panic. -/
inductive Outcome (α : Type) where
  | returned (a : α)
  | panicked (msg : String) (a : α)
deriving DecidableEq, Repr

/-- Go builtin `close(ch)`: closing the nil channel or a closed channel panics, and leaves
everything as it was; closing an open channel marks it closed. A channel number that was
never made is treated like the nil channel. -/
def goClose (ch : Chan) (w : World) : Outcome World :=
  match ch with
  | none => Outcome.panicked "close of nil channel" w
  | some i =>
    match w.chans[i]? with
    | some ChanState.opened =>
      Outcome.returned { chans := w.chans.set i ChanState.closed, calls := w.calls ++ [Call.closeChan i] }
    | some ChanState.closed => Outcome.panicked "close of closed channel" w
    | none => Outcome.panicked "close of nil channel" w

/-- The functions `chain.go` calls that are declared elsewhere: `parseChainConfig`
(config.go), `keystore.KeypairFromAddress` at key type `keystore.EthChain`,
`blockstore.NewBlockstore` and `TryLoadLatestBlock`, `connection.NewConnection` and the
methods of the `Connection` interface, `NewListener`, `NewWriter`, `listener.start`,
`listener.setRouter`, `writer.start`, `writer.log.Debug` and `core.Router.Listen`.
`L`, `W` and `R` are the states of a listener, a writer and a router. A Go result
`(value, error)` of such a function is an `Except`: the code reads the value only when the
error is `nil`, and a `nil` error is taken to come with a usable (non-nil) value. -/
structure Deps (L W R : Type) where
  parseChainConfig : ChainConfig → Except Err Config
  KeypairFromAddress : String → String → Bool → Except Err KeypairI
  NewBlockstore : String → Nat → String → Except Err Blockstore
  TryLoadLatestBlock : Blockstore → Except Err Int
  NewConnection : String → Bool → Keypair → Logger → Int → Int → Int → BigFloat → String →
    String → Connection
  Connect : Connection → Option Err
  EnsureHasBytecode : Connection → Address → Option Err
  LatestBlock : Connection → Except Err Int
  NewListener : Connection → Config → Logger → Option Blockstore → Chan → Chan → Metrics → L
  NewWriter : Connection → Config → Logger → Chan → Chan → Metrics → W
  listenerStart : L → Option Err × L
  listenerSetRouter : L → R → L
  writerStart : W → Option Err × W
  writerLogDebug : String → W → W
  routerListen : R → Nat → W → R

/-- Go `type Chain struct` (chain.go:40). `conn` is an interface value and may be `nil`. -/
structure Chain (L W : Type) where
  cfg : ChainConfig
  conn : Option Connection
  listener : L
  writer : W
  stop : Chan
deriving DecidableEq, Repr

/-! ## chains/klaytn : chain.go, operations -/

section
variable {L W R : Type}

/-- The assignment `cfg.startBlock = b` through the `*Config` pointer. -/
def Config.setStartBlock (cfg : Config) (b : Int) : Config :=
  { cfg with startBlock := b }

/-- Go `(*big.Int).Cmp`: `-1` if `x < y`, `0` if `x = y`, `+1` if `x > y`. -/
def bigCmp (x y : Int) : Int :=
  if x < y then -1 else if x = y then 0 else 1

/-- Go `func setupBlockstore(cfg *Config, kp *secp256k1.Keypair) (*blockstore.Blockstore, error)`
(chain.go:50). `cfg` is a pointer: the first component of the result is the `Config` it
points to when the function returns, the second is the returned pair. -/
def setupBlockstore (d : Deps L W R) (cfg : Config) (kp : Keypair) (w : World) :
    (Config × Option Blockstore × Option Err) × World :=
  let w := w.log Call.NewBlockstore
  match d.NewBlockstore cfg.blockstorePath cfg.id kp.address with
  | Except.error err => ((cfg, none, some err), w)
  | Except.ok bs =>
    if !cfg.freshStart then
      let w := w.log Call.TryLoadLatestBlock
      match d.TryLoadLatestBlock bs with
      | Except.error err => ((cfg, none, some err), w)
      | Except.ok latestBlock =>
        if bigCmp latestBlock cfg.startBlock == 1 then
          ((cfg.setStartBlock latestBlock, some bs, none), w)
        else
          ((cfg, some bs, none), w)
    else
      ((cfg, some bs, none), w)

/-- Go `func InitializeChain(chainCfg *core.ChainConfig, logger log15.Logger,
sysErr chan<- error, m *metrics.ChainMetrics) (*Chain, error)` (chain.go:70). The result is
the returned pair, `none` being `nil`. -/
def InitializeChain (d : Deps L W R) (chainCfg : ChainConfig) (logger : Logger) (sysErr : Chan)
    (m : Metrics) (w : World) : (Option (Chain L W) × Option Err) × World :=
  let w := w.log Call.parseChainConfig
  match d.parseChainConfig chainCfg with
  | Except.error err => ((none, some err), w)
  | Except.ok cfg =>
  let w := w.log Call.KeypairFromAddress
  match d.KeypairFromAddress cfg.fromAddr cfg.keystorePath chainCfg.Insecure with
  | Except.error err => ((none, some err), w)
  | Except.ok kpI =>
  match kpI with
  | KeypairI.other => ((none, some "keypair type is not secp256k1"), w)
  | KeypairI.secp256k1 kp =>
  match setupBlockstore d cfg kp w with
  | ((_, _, some err), w) => ((none, some err), w)
  | ((cfg, bs, none), w) =>
  let (stop, w) := w.makeChan
  let conn := d.NewConnection cfg.endpoint cfg.http kp logger cfg.gasLimit cfg.maxGasPrice
    cfg.minGasPrice cfg.gasMultiplier cfg.egsApiKey cfg.egsSpeed
  let w := w.log Call.NewConnection
  let w := w.log Call.Connect
  match d.Connect conn with
  | some err => ((none, some err), w)
  | none =>
  let w := w.log (Call.EnsureHasBytecode cfg.bridgeContract)
  match d.EnsureHasBytecode conn cfg.bridgeContract with
  | some err => ((none, some err), w)
  | none =>
  let erc20 : Option Err × World :=
    if cfg.erc20HandlerContract != ZeroAddress then
      (d.EnsureHasBytecode conn cfg.erc20HandlerContract,
        w.log (Call.EnsureHasBytecode cfg.erc20HandlerContract))
    else (none, w)
  match erc20 with
  | (some err, w) => ((none, some err), w)
  | (none, w) =>
  let generic : Option Err × World :=
    if cfg.genericHandlerContract != ZeroAddress then
      (d.EnsureHasBytecode conn cfg.genericHandlerContract,
        w.log (Call.EnsureHasBytecode cfg.genericHandlerContract))
    else (none, w)
  match generic with
  | (some err, w) => ((none, some err), w)
  | (none, w) =>
  let latest : Except Err Config × World :=
    if chainCfg.LatestBlock then
      match d.LatestBlock conn with
      | Except.error err => (Except.error err, w.log Call.LatestBlock)
      | Except.ok curr => (Except.ok (cfg.setStartBlock curr), w.log Call.LatestBlock)
    else (Except.ok cfg, w)
  match latest with
  | (Except.error err, w) => ((none, some err), w)
  | (Except.ok cfg, w) =>
  let listener := d.NewListener conn cfg logger bs stop sysErr m
  let w := w.log Call.NewListener
  let writer := d.NewWriter conn cfg logger stop sysErr m
  let w := w.log Call.NewWriter
  ((some { cfg := chainCfg, conn := some conn, writer := writer, listener := listener,
           stop := stop }, none), w)

/-- Go `func (c *Chain) SetRouter(r *core.Router)` (chain.go:167). The result holds the chain
and the router after the call; the listener is handed the router that has just been told
to listen. -/
def Chain.SetRouter (d : Deps L W R) (c : Chain L W) (r : R) (w : World) :
    (Chain L W × R) × World :=
  let r := d.routerListen r c.cfg.Id c.writer
  let w := w.log (Call.routerListen c.cfg.Id)
  let listener := d.listenerSetRouter c.listener r
  let w := w.log Call.listenerSetRouter
  (({ c with listener := listener }, r), w)

/-- Go `func (c *Chain) Start() error` (chain.go:172). The result holds the returned error and
the chain after the call. -/
def Chain.Start (d : Deps L W R) (c : Chain L W) (w : World) :
    (Option Err × Chain L W) × World :=
  let w := w.log Call.listenerStart
  match d.listenerStart c.listener with
  | (some err, listener) => ((some err, { c with listener := listener }), w)
  | (none, listener) =>
  let w := w.log Call.writerStart
  match d.writerStart c.writer with
  | (some err, writer) => ((some err, { c with listener := listener, writer := writer }), w)
  | (none, writer) =>
  let writer := d.writerLogDebug "Successfully started chain" writer
  let w := w.log (Call.writerLogDebug "Successfully started chain")
  ((none, { c with listener := listener, writer := writer }), w)

/-- Go `func (c *Chain) Id() msg.ChainId` (chain.go:187). -/
def Chain.Id (c : Chain L W) : Nat := c.cfg.Id

/-- Go `func (c *Chain) Name() string` (chain.go:191). -/
def Chain.Name (c : Chain L W) : String := c.cfg.Name

/-- Go `func (c *Chain) Stop()` (chain.go:200). The result holds the chain and the world after
the call, or at the panic. -/
def Chain.Stop (c : Chain L W) (w : World) : Outcome (Chain L W × World) :=
  match goClose c.stop w with
  | Outcome.panicked msg w => Outcome.panicked msg (c, w)
  | Outcome.returned w =>
    match c.conn with
    | some conn => Outcome.returned (c, w.log (Call.connClose conn))
    | none => Outcome.returned (c, w)

/-- The connection `InitializeChain` builds at chain.go:91 from the configuration `cfg`. -/
def connOf (d : Deps L W R) (cfg : Config) (kp : Keypair) (logger : Logger) : Connection :=
  d.NewConnection cfg.endpoint cfg.http kp logger cfg.gasLimit cfg.maxGasPrice
    cfg.minGasPrice cfg.gasMultiplier cfg.egsApiKey cfg.egsSpeed

/-- Lines 71-88 of `InitializeChain` went through: the configuration parsed, the keypair
was loaded and is the secp256k1 keypair `kp`, and `setupBlockstore` returned the blockstore
`bs` without error, leaving the configuration `cfg`. -/
def Prepared (d : Deps L W R) (chainCfg : ChainConfig) (w : World) (kp : Keypair)
    (cfg : Config) (bs : Option Blockstore) : Prop :=
  ∃ cfg0, d.parseChainConfig chainCfg = Except.ok cfg0 ∧
    d.KeypairFromAddress cfg0.fromAddr cfg0.keystorePath chainCfg.Insecure =
      Except.ok (KeypairI.secp256k1 kp) ∧
    (setupBlockstore d cfg0 kp
      ((w.log Call.parseChainConfig).log Call.KeypairFromAddress)).1 = (cfg, bs, none)

/-- The state an outcome carries, whether the code returned or panicked. -/
def Outcome.state {α : Type} : Outcome α → α
  | Outcome.returned a => a
  | Outcome.panicked _ a => a

end

/-! ## Scenarios

Concrete listeners, writers, routers and dependencies, used to run the code above on
explicit inputs. -/

/-- A listener that remembers what `NewListener` gave it, whether its loop was started and
which router it was told about. -/
structure ListenerSt where
  conn : Connection
  cfg : Config
  blockstore : Option Blockstore
  stop : Chan
  running : Bool
  router : Option (List Nat)
deriving DecidableEq, Repr

/-- A writer that remembers what `NewWriter` gave it and whether it was started. -/
structure WriterSt where
  conn : Connection
  cfg : Config
  stop : Chan
  running : Bool
deriving DecidableEq, Repr

/-- A router, as the list of chain identifiers it listens for (latest first). -/
abbrev RouterSt := List Nat

/-- A parsed configuration with chain id 5 and the given start policy and contracts. -/
def sampleConfig (freshStart : Bool) (startBlock : Int)
    (bridge erc20 generic : Address) : Config :=
  { id := 5, endpoint := "ws://localhost:8551", fromAddr := "0xff93", keystorePath := "keys",
    blockstorePath := "blockstore", freshStart := freshStart, bridgeContract := bridge,
    erc20HandlerContract := erc20, genericHandlerContract := generic, gasLimit := 6721975, maxGasPrice := 20000000000,
    minGasPrice := 0, gasMultiplier := "1", http := false, startBlock := startBlock,
    egsApiKey := "", egsSpeed := "" }

/-- The `core.ChainConfig` of chain 5, named "klaytn". -/
def sampleChainConfig (latestBlock : Bool) : ChainConfig :=
  { Name := "klaytn", Id := 5, Endpoint := "ws://localhost:8551", From := "0xff93",
    KeystorePath := "keys", Insecure := false, BlockstorePath := "blockstore",
    FreshStart := false, LatestBlock := latestBlock, Opts := [] }

/-- Dependencies in which every step succeeds, except that the addresses in `noCode` have
no bytecode and the writer fails to start when `writerFails` is set. The configuration
parses to `cfg`, the blockstore holds the height `stored`, and the chain head is `head`. -/
def sampleDeps (cfg : Config) (stored head : Int) (noCode : List Address)
    (writerFails : Bool) : Deps ListenerSt WriterSt RouterSt :=
  { parseChainConfig := fun _ => Except.ok cfg
    KeypairFromAddress := fun _ _ _ => Except.ok (KeypairI.secp256k1 { address := "0xff93" })
    NewBlockstore := fun _ _ _ => Except.ok 7
    TryLoadLatestBlock := fun _ => Except.ok stored
    NewConnection := fun _ _ _ _ _ _ _ _ _ _ => 3
    Connect := fun _ => none
    EnsureHasBytecode := fun _ a =>
      if a ∈ noCode then some "no bytecode found at address" else none
    LatestBlock := fun _ => Except.ok head
    NewListener := fun conn cfg _ bs stop _ _ =>
      { conn := conn, cfg := cfg, blockstore := bs, stop := stop, running := false,
        router := none }
    NewWriter := fun conn cfg _ stop _ _ =>
      { conn := conn, cfg := cfg, stop := stop, running := false }
    listenerStart := fun l => (none, { l with running := true })
    listenerSetRouter := fun l r => { l with router := some r }
    writerStart := fun x =>
      if writerFails then (some "writer failed to start", x)
      else (none, { x with running := true })
    writerLogDebug := fun _ x => x
    routerListen := fun r id _ => id :: r }

/-- The dependencies of `sampleDeps`, except that the blockstore cannot be opened. -/
def sampleDepsNoStore (cfg : Config) : Deps ListenerSt WriterSt RouterSt :=
  { sampleDeps cfg 100 50 [] false with
    NewBlockstore := fun _ _ _ => Except.error "blockstore unavailable" }

/-- The dependencies of `sampleDeps`, except that the stored height cannot be read. -/
def sampleDepsUnreadableStore (cfg : Config) : Deps ListenerSt WriterSt RouterSt :=
  { sampleDeps cfg 100 50 [] false with
    TryLoadLatestBlock := fun _ => Except.error "blockstore unreadable" }

/-- A chain runtime as `InitializeChain` wires it from `cfg`: connection 3, stop channel 0,
listener and writer not yet started. -/
def sampleChain (cfg : Config) : Chain ListenerSt WriterSt :=
  { cfg := sampleChainConfig false, conn := some 3,
    listener := { conn := 3, cfg := cfg, blockstore := some 7, stop := some 0,
                  running := false, router := none },
    writer := { conn := 3, cfg := cfg, stop := some 0, running := false },
    stop := some 0 }

/-- A world in which channel 0 has been made and is open. -/
def sampleWorld : World := { chans := [ChanState.opened], calls := [Call.makeChan 0] }

/-- The empty world: no channel allocated, no call made. -/
def World.empty : World := { chans := [], calls := [] }

/-- Runs `n` calls of `Chain.Stop` in a row, each continuing from the state the previous
one left (a panic leaves the state as it was at the panic). -/
def stopTimes {L W : Type} : Nat → Chain L W × World → Chain L W × World
  | 0, s => s
  | n + 1, s =>
    match Chain.Stop s.1 s.2 with
    | Outcome.returned s1 => stopTimes n s1
    | Outcome.panicked _ s1 => stopTimes n s1

/-! ## Proposal status queries -/

/-- C6: with Inactive=0, Active=1, Passed=2, Executed=3, Cancelled=4, for every uint8 status
`s`: `IsActive s` holds iff `s` is Active, `IsFinalized s` iff `s` is Passed, `IsExecuted s`
iff `s` is Executed; hence no two of the three queries hold together. -/
theorem status_queries_exact (s : Nat) (hs : s < 256) :
    (Inactive = 0 ∧ Active = 1 ∧ Passed = 2 ∧ Executed = 3 ∧ Cancelled = 4) ∧
    (IsActive s = true ↔ toProposalStatus s = Active) ∧
    (IsFinalized s = true ↔ toProposalStatus s = Passed) ∧
    (IsExecuted s = true ↔ toProposalStatus s = Executed) ∧
    (IsActive s = true ↔ s = 1) ∧ (IsFinalized s = true ↔ s = 2) ∧
    (IsExecuted s = true ↔ s = 3) ∧
    ¬ (IsActive s = true ∧ IsFinalized s = true) ∧
    ¬ (IsActive s = true ∧ IsExecuted s = true) ∧
    ¬ (IsFinalized s = true ∧ IsExecuted s = true) := by
  have _ := hs
  have ha : IsActive s = true ↔ s = 1 := by
    unfold IsActive toProposalStatus Active ProposalStatus
    simp only [beq_iff_eq, Int.ofNat_eq_coe]; omega
  have hf : IsFinalized s = true ↔ s = 2 := by
    unfold IsFinalized toProposalStatus Passed ProposalStatus
    simp only [beq_iff_eq, Int.ofNat_eq_coe]; omega
  have he : IsExecuted s = true ↔ s = 3 := by
    unfold IsExecuted toProposalStatus Executed ProposalStatus
    simp only [beq_iff_eq, Int.ofNat_eq_coe]; omega
  refine ⟨⟨rfl, rfl, rfl, rfl, rfl⟩, ?_, ?_, ?_, ha, hf, he, ?_, ?_, ?_⟩
  · simp only [IsActive, beq_iff_eq]
  · simp only [IsFinalized, beq_iff_eq]
  · simp only [IsExecuted, beq_iff_eq]
  · rw [ha, hf]; omega
  · rw [ha, he]; omega
  · rw [hf, he]; omega

/-- Instance of `status_queries_exact` at the status value 2 (Passed). -/
theorem status_queries_exact_witness :
    (2 : Nat) < 256 ∧ (IsFinalized 2 = true ↔ 2 = 2) ∧ IsFinalized 2 = true :=
  ⟨by decide, (status_queries_exact 2 (by decide)).2.2.2.2.2.1, by decide⟩

/-- C10: for `s` Inactive (0), Cancelled (4) or any uint8 above 4, the three queries are all
false; so anything computed from the three answers alone is the same for an Inactive
proposal as for a Cancelled one. -/
theorem status_queries_blind (s : Nat) (hs : s < 256) (hout : s = 0 ∨ s = 4 ∨ 4 < s) :
    (IsActive s = false ∧ IsFinalized s = false ∧ IsExecuted s = false) ∧
    (toProposalStatus 0 = Inactive ∧ toProposalStatus 4 = Cancelled) ∧
    (∀ (α : Type) (decision : Bool → Bool → Bool → α),
      decision (IsActive 0) (IsFinalized 0) (IsExecuted 0) =
        decision (IsActive 4) (IsFinalized 4) (IsExecuted 4)) := by
  have _ := hs
  refine ⟨⟨?_, ?_, ?_⟩, ⟨rfl, rfl⟩, fun _ _ => rfl⟩
  · unfold IsActive toProposalStatus Active ProposalStatus
    simp only [beq_eq_false_iff_ne, ne_eq, Int.ofNat_eq_coe]; omega
  · unfold IsFinalized toProposalStatus Passed ProposalStatus
    simp only [beq_eq_false_iff_ne, ne_eq, Int.ofNat_eq_coe]; omega
  · unfold IsExecuted toProposalStatus Executed ProposalStatus
    simp only [beq_eq_false_iff_ne, ne_eq, Int.ofNat_eq_coe]; omega

/-- Instance of `status_queries_blind` at the out-of-range status value 200. -/
theorem status_queries_blind_witness :
    (200 : Nat) < 256 ∧ IsActive 200 = false ∧ IsFinalized 200 = false ∧
      IsExecuted 200 = false :=
  ⟨by decide, (status_queries_blind 200 (by decide) (Or.inr (Or.inr (by decide)))).1⟩

/-! ## Event topics -/

/-- Every lane is written out as 8 bytes. -/
theorem bytesOfLane_length (x : Nat) : (bytesOfLane x).length = 8 := by
  simp [bytesOfLane]

/-- The digest has 32 bytes, whatever the input. -/
theorem Keccak256Hash_length (data : List Byte) : (Keccak256Hash data).length = 32 := by
  have h : ∀ f : Nat → Nat, ((List.range 4).flatMap (fun i => bytesOfLane (f i))).length = 32 := by
    intro f
    have h4 : List.range 4 = [0, 1, 2, 3] := by decide
    rw [h4]
    simp [List.flatMap, bytesOfLane_length]
  exact h _

/-- The Keccak-256 digest of the empty input, c5d246...85a470. -/
theorem Keccak256Hash_empty :
    (Keccak256Hash []).map Fin.val =
      [0xc5, 0xd2, 0x46, 0x01, 0x86, 0xf7, 0x23, 0x3c, 0x92, 0x7e, 0x7d, 0xb2, 0xdc, 0xc7,
       0x03, 0xc0, 0xe5, 0x00, 0xb6, 0x53, 0xca, 0x82, 0x27, 0x3b, 0x7b, 0xfa, 0xd8, 0x04,
       0x5d, 0x85, 0xa4, 0x70] := by
  decide!

/-- The Keccak-256 digest of "abc", 4e0365...2d6c45. -/
theorem Keccak256Hash_abc :
    (Keccak256Hash (ascii "abc")).map Fin.val =
      [0x4e, 0x03, 0x65, 0x7a, 0xea, 0x45, 0xa9, 0x4f, 0xc7, 0xd4, 0x7b, 0xa8, 0x26, 0xc8,
       0xd6, 0x67, 0xc0, 0xd1, 0xe6, 0xe3, 0x3a, 0x64, 0xa0, 0x36, 0xec, 0x44, 0xf5, 0x8f,
       0xa1, 0x2d, 0x6c, 0x45] := by
  decide!

/-- The topic of the `Deposit` signature. -/
theorem GetTopic_Deposit :
    (EventSig.GetTopic Deposit).map Fin.val =
      [0xdb, 0xb6, 0x94, 0x40, 0xdf, 0x84, 0x33, 0x82, 0x4a, 0x02, 0x6e, 0xf1, 0x90, 0x65,
       0x2f, 0x29, 0x92, 0x9e, 0xb6, 0x4b, 0x4d, 0x1d, 0x5d, 0x2a, 0x69, 0xbe, 0x8a, 0xfe,
       0x3e, 0x6e, 0xae, 0xd8] := by
  decide!

/-- The topic of the `ProposalEvent` signature. -/
theorem GetTopic_ProposalEvent :
    (EventSig.GetTopic ProposalEvent).map Fin.val =
      [0x80, 0x3c, 0x5a, 0x12, 0xf6, 0xbd, 0xe6, 0x29, 0xce, 0xa3, 0x2e, 0x63, 0xd4, 0xb9,
       0x2d, 0x1b, 0x56, 0x08, 0x16, 0xa6, 0xfb, 0x72, 0xe9, 0x39, 0xd3, 0xc8, 0x9e, 0x1c,
       0xab, 0x65, 0x04, 0x17] := by
  decide!

/-- The topic of the `ProposalVote` signature. -/
theorem GetTopic_ProposalVote :
    (EventSig.GetTopic ProposalVote).map Fin.val =
      [0x25, 0xf8, 0xda, 0xaa, 0x46, 0x35, 0xa7, 0x72, 0x99, 0x27, 0xba, 0x3f, 0x5b, 0x3d,
       0x59, 0xcc, 0x33, 0x20, 0xac, 0xa7, 0xc3, 0x2c, 0x9d, 0xb4, 0xe7, 0xca, 0x7b, 0x95,
       0x74, 0x34, 0x36, 0x40] := by
  decide!

/-- C7: the topic of an event signature is a function of its bytes alone: equal signatures
have equal topics; the topic has exactly 32 bytes; it is what the shared `Hash` helper
returns on the signature's bytes, both being the Keccak-256 hash of the text. The hash is
Keccak-256: it maps the empty input and "abc" to their published Keccak-256 digests, and
the three event signatures to the three different topics listed. -/
theorem GetTopic_deterministic (a b : EventSig) (hab : a = b) :
    EventSig.GetTopic a = EventSig.GetTopic b ∧
    (EventSig.GetTopic a).length = 32 ∧
    EventSig.GetTopic a = Hash a ∧
    EventSig.GetTopic a = Keccak256Hash a ∧
    (Keccak256Hash []).map Fin.val =
      [0xc5, 0xd2, 0x46, 0x01, 0x86, 0xf7, 0x23, 0x3c, 0x92, 0x7e, 0x7d, 0xb2, 0xdc, 0xc7,
       0x03, 0xc0, 0xe5, 0x00, 0xb6, 0x53, 0xca, 0x82, 0x27, 0x3b, 0x7b, 0xfa, 0xd8, 0x04,
       0x5d, 0x85, 0xa4, 0x70] ∧
    (Keccak256Hash (ascii "abc")).map Fin.val =
      [0x4e, 0x03, 0x65, 0x7a, 0xea, 0x45, 0xa9, 0x4f, 0xc7, 0xd4, 0x7b, 0xa8, 0x26, 0xc8,
       0xd6, 0x67, 0xc0, 0xd1, 0xe6, 0xe3, 0x3a, 0x64, 0xa0, 0x36, 0xec, 0x44, 0xf5, 0x8f,
       0xa1, 0x2d, 0x6c, 0x45] ∧
    (EventSig.GetTopic Deposit).map Fin.val =
      [0xdb, 0xb6, 0x94, 0x40, 0xdf, 0x84, 0x33, 0x82, 0x4a, 0x02, 0x6e, 0xf1, 0x90, 0x65,
       0x2f, 0x29, 0x92, 0x9e, 0xb6, 0x4b, 0x4d, 0x1d, 0x5d, 0x2a, 0x69, 0xbe, 0x8a, 0xfe,
       0x3e, 0x6e, 0xae, 0xd8] ∧
    (EventSig.GetTopic ProposalEvent).map Fin.val =
      [0x80, 0x3c, 0x5a, 0x12, 0xf6, 0xbd, 0xe6, 0x29, 0xce, 0xa3, 0x2e, 0x63, 0xd4, 0xb9,
       0x2d, 0x1b, 0x56, 0x08, 0x16, 0xa6, 0xfb, 0x72, 0xe9, 0x39, 0xd3, 0xc8, 0x9e, 0x1c,
       0xab, 0x65, 0x04, 0x17] ∧
    (EventSig.GetTopic ProposalVote).map Fin.val =
      [0x25, 0xf8, 0xda, 0xaa, 0x46, 0x35, 0xa7, 0x72, 0x99, 0x27, 0xba, 0x3f, 0x5b, 0x3d,
       0x59, 0xcc, 0x33, 0x20, 0xac, 0xa7, 0xc3, 0x2c, 0x9d, 0xb4, 0xe7, 0xca, 0x7b, 0x95,
       0x74, 0x34, 0x36, 0x40] ∧
    EventSig.GetTopic Deposit ≠ EventSig.GetTopic ProposalEvent ∧
    EventSig.GetTopic Deposit ≠ EventSig.GetTopic ProposalVote ∧
    EventSig.GetTopic ProposalEvent ≠ EventSig.GetTopic ProposalVote := by
  subst hab
  have hd := GetTopic_Deposit
  have he := GetTopic_ProposalEvent
  have hv := GetTopic_ProposalVote
  refine ⟨rfl, Keccak256Hash_length a, rfl, rfl, Keccak256Hash_empty, Keccak256Hash_abc,
    hd, he, hv, ?_, ?_, ?_⟩
  · intro h
    rw [h, he] at hd
    exact absurd hd (by decide)
  · intro h
    rw [h, hv] at hd
    exact absurd hd (by decide)
  · intro h
    rw [h, hv] at he
    exact absurd he (by decide)

/-- Instance of `GetTopic_deterministic` at the `Deposit` signature. -/
theorem GetTopic_deterministic_witness :
    Deposit = ascii "Deposit(uint8,bytes32,uint64)" ∧
    EventSig.GetTopic Deposit = EventSig.GetTopic (ascii "Deposit(uint8,bytes32,uint64)") ∧
    (EventSig.GetTopic Deposit).length = 32 ∧
    EventSig.GetTopic Deposit = Hash Deposit :=
  let h := GetTopic_deterministic Deposit (ascii "Deposit(uint8,bytes32,uint64)") rfl
  ⟨rfl, h.1, h.2.1, h.2.2.1⟩

/-! ## Building the chain runtime -/

section
variable {L W R : Type}

theorem Config.setStartBlock_self (cfg : Config) : cfg.setStartBlock cfg.startBlock = cfg := by
  cases cfg; rfl

/-- What `setupBlockstore` returns when the store is opened and read: the larger of the
configured and the stored height becomes the start block. -/
theorem setupBlockstore_loaded (d : Deps L W R) (cfg : Config) (kp : Keypair) (w : World)
    (bs : Blockstore) (b : Int) (hfresh : cfg.freshStart = false)
    (hbs : d.NewBlockstore cfg.blockstorePath cfg.id kp.address = Except.ok bs)
    (hload : d.TryLoadLatestBlock bs = Except.ok b) :
    setupBlockstore d cfg kp w =
      ((cfg.setStartBlock (max cfg.startBlock b), some bs, none),
        { w with calls := w.calls ++ [Call.NewBlockstore, Call.TryLoadLatestBlock] }) := by
  simp only [setupBlockstore, hbs, hfresh, hload, World.log, bigCmp]
  by_cases h : b < cfg.startBlock
  · simp [h, max_eq_left (le_of_lt h), Config.setStartBlock_self]
  · by_cases h2 : b = cfg.startBlock
    · simp [h2, Config.setStartBlock_self]
    · have h3 : cfg.startBlock < b := by omega
      simp [h, h2, max_eq_right (le_of_lt h3)]

/-- What `setupBlockstore` returns on a fresh start: the store is opened and nothing more. -/
theorem setupBlockstore_fresh (d : Deps L W R) (cfg : Config) (kp : Keypair) (w : World)
    (bs : Blockstore) (hfresh : cfg.freshStart = true)
    (hbs : d.NewBlockstore cfg.blockstorePath cfg.id kp.address = Except.ok bs) :
    setupBlockstore d cfg kp w =
      ((cfg, some bs, none), { w with calls := w.calls ++ [Call.NewBlockstore] }) := by
  simp [setupBlockstore, hbs, hfresh, World.log]

/-- No channel is allocated or closed by `setupBlockstore`. -/
theorem setupBlockstore_chans (d : Deps L W R) (cfg : Config) (kp : Keypair) (w : World) :
    (setupBlockstore d cfg kp w).2.chans = w.chans := by
  cases h1 : d.NewBlockstore cfg.blockstorePath cfg.id kp.address with
  | error e => simp [setupBlockstore, h1, World.log]
  | ok bs =>
    cases h2 : cfg.freshStart with
    | true => simp [setupBlockstore, h1, h2, World.log]
    | false =>
      cases h3 : d.TryLoadLatestBlock bs with
      | error e => simp [setupBlockstore, h1, h2, h3, World.log]
      | ok b =>
        by_cases h : bigCmp b cfg.startBlock = 1 <;>
          simp [setupBlockstore, h1, h2, h3, h, World.log]

/-- At most one keypair, configuration and blockstore come out of lines 71-88. -/
theorem Prepared.unique {d : Deps L W R} {chainCfg : ChainConfig} {w : World}
    {kp kp' : Keypair} {cfg cfg' : Config} {bs bs' : Option Blockstore}
    (h : Prepared d chainCfg w kp cfg bs) (h' : Prepared d chainCfg w kp' cfg' bs') :
    kp = kp' ∧ cfg = cfg' ∧ bs = bs' := by
  obtain ⟨c0, hp, hk, hs⟩ := h
  obtain ⟨c0', hp', hk', hs'⟩ := h'
  rw [hp] at hp'
  cases hp'
  rw [hk] at hk'
  cases hk'
  rw [hs] at hs'
  cases hs'
  exact ⟨rfl, rfl, rfl⟩

/-- Shape of the result: `InitializeChain` either returns `(nil, err)`, or every step went
through and it returns the chain wired from the one connection and the one freshly made
stop channel. -/
theorem InitializeChain_shape (d : Deps L W R) (chainCfg : ChainConfig) (logger : Logger)
    (sysErr : Chan) (m : Metrics) (w : World) :
    (∃ err, (InitializeChain d chainCfg logger sysErr m w).1 = (none, some err)) ∨
    (∃ kp cfg1 bs cfg2,
      Prepared d chainCfg w kp cfg1 bs ∧
      d.Connect (connOf d cfg1 kp logger) = none ∧
      d.EnsureHasBytecode (connOf d cfg1 kp logger) cfg1.bridgeContract = none ∧
      (cfg1.erc20HandlerContract ≠ ZeroAddress →
        d.EnsureHasBytecode (connOf d cfg1 kp logger) cfg1.erc20HandlerContract = none) ∧
      (cfg1.genericHandlerContract ≠ ZeroAddress →
        d.EnsureHasBytecode (connOf d cfg1 kp logger) cfg1.genericHandlerContract = none) ∧
      (chainCfg.LatestBlock = true →
        ∃ curr, d.LatestBlock (connOf d cfg1 kp logger) = Except.ok curr ∧
          cfg2 = cfg1.setStartBlock curr) ∧
      (chainCfg.LatestBlock = false → cfg2 = cfg1) ∧
      (InitializeChain d chainCfg logger sysErr m w).1 =
        (some { cfg := chainCfg, conn := some (connOf d cfg1 kp logger),
                listener := d.NewListener (connOf d cfg1 kp logger) cfg2 logger bs
                  (some w.chans.length) sysErr m,
                writer := d.NewWriter (connOf d cfg1 kp logger) cfg2 logger
                  (some w.chans.length) sysErr m,
                stop := some w.chans.length }, none)) := by
  cases hp : d.parseChainConfig chainCfg with
  | error e => exact Or.inl ⟨e, by simp only [InitializeChain, hp]⟩
  | ok cfg0 =>
  cases hk : d.KeypairFromAddress cfg0.fromAddr cfg0.keystorePath chainCfg.Insecure with
  | error e => exact Or.inl ⟨e, by simp only [InitializeChain, hp, hk]⟩
  | ok kpI =>
  cases kpI with
  | other =>
    exact Or.inl ⟨"keypair type is not secp256k1", by simp only [InitializeChain, hp, hk]⟩
  | secp256k1 kp =>
  rcases hsb : setupBlockstore d cfg0 kp
    ((w.log Call.parseChainConfig).log Call.KeypairFromAddress) with ⟨⟨cfg1, bs, e⟩, w1⟩
  cases e with
  | some err => exact Or.inl ⟨err, by simp only [InitializeChain, hp, hk, hsb]⟩
  | none =>
  have hprep : Prepared d chainCfg w kp cfg1 bs := ⟨cfg0, hp, hk, by rw [hsb]⟩
  cases hc : d.Connect (connOf d cfg1 kp logger) with
  | some err =>
    exact Or.inl ⟨err, by
      simp only [connOf] at hc
      simp only [InitializeChain, hp, hk, hsb, World.makeChan, hc]⟩
  | none =>
  cases hb : d.EnsureHasBytecode (connOf d cfg1 kp logger) cfg1.bridgeContract with
  | some err =>
    exact Or.inl ⟨err, by
      simp only [connOf] at hc hb
      simp only [InitializeChain, hp, hk, hsb, World.makeChan, hc, hb]⟩
  | none =>
  have h20 : (cfg1.erc20HandlerContract ≠ ZeroAddress ∧ ∃ err,
        d.EnsureHasBytecode (connOf d cfg1 kp logger) cfg1.erc20HandlerContract = some err) ∨
      (cfg1.erc20HandlerContract ≠ ZeroAddress →
        d.EnsureHasBytecode (connOf d cfg1 kp logger) cfg1.erc20HandlerContract = none) := by
    cases h : d.EnsureHasBytecode (connOf d cfg1 kp logger) cfg1.erc20HandlerContract with
    | none => exact Or.inr (fun _ => rfl)
    | some err =>
      by_cases hz : cfg1.erc20HandlerContract = ZeroAddress
      · exact Or.inr (fun hne => absurd hz hne)
      · exact Or.inl ⟨hz, err, rfl⟩
  rcases h20 with ⟨hz20, err, he20⟩ | h20
  · exact Or.inl ⟨err, by
      simp only [connOf] at hc hb he20
      simp [InitializeChain, hp, hk, hsb, World.makeChan, hc, hb, hz20, he20]⟩
  have hgen : (cfg1.genericHandlerContract ≠ ZeroAddress ∧ ∃ err,
        d.EnsureHasBytecode (connOf d cfg1 kp logger) cfg1.genericHandlerContract = some err) ∨
      (cfg1.genericHandlerContract ≠ ZeroAddress →
        d.EnsureHasBytecode (connOf d cfg1 kp logger) cfg1.genericHandlerContract = none) := by
    cases h : d.EnsureHasBytecode (connOf d cfg1 kp logger) cfg1.genericHandlerContract with
    | none => exact Or.inr (fun _ => rfl)
    | some err =>
      by_cases hz : cfg1.genericHandlerContract = ZeroAddress
      · exact Or.inr (fun hne => absurd hz hne)
      · exact Or.inl ⟨hz, err, rfl⟩
  rcases hgen with ⟨hzg, err, heg⟩ | hgen
  · refine Or.inl ⟨err, ?_⟩
    simp only [connOf] at hc hb heg h20
    by_cases hz : cfg1.erc20HandlerContract = ZeroAddress
    · simp [InitializeChain, hp, hk, hsb, World.makeChan, hc, hb, hz, hzg, heg]
    · simp [InitializeChain, hp, hk, hsb, World.makeChan, hc, hb, hz, h20 hz, hzg, heg]
  have hch : w1.chans = w.chans := by
    have h := setupBlockstore_chans d cfg0 kp
      ((w.log Call.parseChainConfig).log Call.KeypairFromAddress)
    rw [hsb] at h
    exact h
  cases hl : chainCfg.LatestBlock with
  | false =>
    refine Or.inr ⟨kp, cfg1, bs, cfg1, hprep, hc, hb, h20, hgen,
      fun h => by simp at h, fun _ => rfl, ?_⟩
    simp only [connOf] at hc hb h20 hgen ⊢
    by_cases hz : cfg1.erc20HandlerContract = ZeroAddress <;>
    by_cases hzg : cfg1.genericHandlerContract = ZeroAddress <;>
    simp [InitializeChain, hp, hk, hsb, World.makeChan, hc, hb, hz, hzg, hl, h20, hgen, hch]
  | true =>
    cases hlb : d.LatestBlock (connOf d cfg1 kp logger) with
    | error err =>
      refine Or.inl ⟨err, ?_⟩
      simp only [connOf] at hc hb h20 hgen hlb
      by_cases hz : cfg1.erc20HandlerContract = ZeroAddress <;>
      by_cases hzg : cfg1.genericHandlerContract = ZeroAddress <;>
      simp [InitializeChain, hp, hk, hsb, World.makeChan, hc, hb, hz, hzg, hl, h20, hgen, hlb]
    | ok curr =>
      refine Or.inr ⟨kp, cfg1, bs, cfg1.setStartBlock curr, hprep, hc, hb, h20,
        hgen, fun _ => ⟨curr, hlb, rfl⟩, fun h => by simp at h, ?_⟩
      simp only [connOf] at hc hb h20 hgen hlb ⊢
      by_cases hz : cfg1.erc20HandlerContract = ZeroAddress <;>
      by_cases hzg : cfg1.genericHandlerContract = ZeroAddress <;>
      simp [InitializeChain, hp, hk, hsb, World.makeChan, hc, hb, hz, hzg, hl, h20, hgen, hlb,
        hch]

/-- The bytecode checks that are made (chain.go:96-113): once connected, a bridge contract
without bytecode, then a non-zero erc20 handler without bytecode, then a non-zero generic
handler without bytecode, each makes `InitializeChain` return `nil` with the error of
`EnsureHasBytecode`. -/
theorem InitializeChain_bytecode_checked (d : Deps L W R) (chainCfg : ChainConfig)
    (logger : Logger) (sysErr : Chan) (m : Metrics) (w : World) (kp : Keypair) (cfg : Config)
    (bs : Option Blockstore) (hprep : Prepared d chainCfg w kp cfg bs)
    (hc : d.Connect (connOf d cfg kp logger) = none) :
    (∀ e, d.EnsureHasBytecode (connOf d cfg kp logger) cfg.bridgeContract = some e →
      (InitializeChain d chainCfg logger sysErr m w).1 = (none, some e)) ∧
    (∀ e, d.EnsureHasBytecode (connOf d cfg kp logger) cfg.bridgeContract = none →
      cfg.erc20HandlerContract ≠ ZeroAddress →
      d.EnsureHasBytecode (connOf d cfg kp logger) cfg.erc20HandlerContract = some e →
      (InitializeChain d chainCfg logger sysErr m w).1 = (none, some e)) ∧
    (∀ e, d.EnsureHasBytecode (connOf d cfg kp logger) cfg.bridgeContract = none →
      (cfg.erc20HandlerContract ≠ ZeroAddress →
        d.EnsureHasBytecode (connOf d cfg kp logger) cfg.erc20HandlerContract = none) →
      cfg.genericHandlerContract ≠ ZeroAddress →
      d.EnsureHasBytecode (connOf d cfg kp logger) cfg.genericHandlerContract = some e →
      (InitializeChain d chainCfg logger sysErr m w).1 = (none, some e)) := by
  obtain ⟨cfg0, hp, hk, hsb⟩ := hprep
  rcases hs : setupBlockstore d cfg0 kp
    ((w.log Call.parseChainConfig).log Call.KeypairFromAddress) with ⟨⟨c1, b1, e1⟩, w1⟩
  rw [hs] at hsb
  cases hsb
  simp only [connOf] at hc ⊢
  refine ⟨?_, ?_, ?_⟩
  · intro e hb
    simp only [InitializeChain, hp, hk, hs, World.makeChan, hc, hb]
  · intro e hb hz he
    simp [InitializeChain, hp, hk, hs, World.makeChan, hc, hb, hz, he]
  · intro e hb h20 hzg heg
    by_cases hz : cfg.erc20HandlerContract = ZeroAddress
    · simp [InitializeChain, hp, hk, hs, World.makeChan, hc, hb, hz, hzg, heg]
    · simp [InitializeChain, hp, hk, hs, World.makeChan, hc, hb, hz, h20 hz, hzg, heg]

end

section
variable {L W R : Type}

/-- C2: with freshStart off and the store opened and read successfully, `setupBlockstore`
leaves `cfg.startBlock` at the maximum of the configured height `s` and the stored height
`b`: `b` replaces `s` exactly when `b > s`, and `s` is kept when `s >= b`. With freshStart
on, `cfg` is left unchanged and the stored height is not read: the only call made is
`NewBlockstore`, and the result is the same whatever `TryLoadLatestBlock` would return. -/
theorem setupBlockstore_start_block (d : Deps L W R) (cfg : Config) (kp : Keypair)
    (w : World) :
    (∀ bs b, cfg.freshStart = false →
      d.NewBlockstore cfg.blockstorePath cfg.id kp.address = Except.ok bs →
      d.TryLoadLatestBlock bs = Except.ok b →
      (setupBlockstore d cfg kp w).1 =
        (cfg.setStartBlock (max cfg.startBlock b), some bs, none) ∧
      (setupBlockstore d cfg kp w).1.1.startBlock = max cfg.startBlock b ∧
      (cfg.startBlock < b ↔ (setupBlockstore d cfg kp w).1.1.startBlock ≠ cfg.startBlock) ∧
      (cfg.startBlock < b → (setupBlockstore d cfg kp w).1.1 = cfg.setStartBlock b) ∧
      (b ≤ cfg.startBlock → (setupBlockstore d cfg kp w).1.1 = cfg)) ∧
    (cfg.freshStart = true →
      (setupBlockstore d cfg kp w).1.1 = cfg ∧
      (setupBlockstore d cfg kp w).2.calls = w.calls ++ [Call.NewBlockstore] ∧
      ∀ load : Blockstore → Except Err Int,
        setupBlockstore { d with TryLoadLatestBlock := load } cfg kp w =
          setupBlockstore d cfg kp w) := by
  constructor
  · intro bs b hfresh hbs hload
    rw [setupBlockstore_loaded d cfg kp w bs b hfresh hbs hload]
    refine ⟨rfl, rfl, ?_, ?_, ?_⟩
    · show cfg.startBlock < b ↔ max cfg.startBlock b ≠ cfg.startBlock
      constructor
      · intro h; rw [max_eq_right (le_of_lt h)]; omega
      · intro h
        by_contra hlt
        exact h (max_eq_left (not_lt.mp hlt))
    · intro h
      show cfg.setStartBlock (max cfg.startBlock b) = cfg.setStartBlock b
      rw [max_eq_right (le_of_lt h)]
    · intro h
      show cfg.setStartBlock (max cfg.startBlock b) = cfg
      rw [max_eq_left h, Config.setStartBlock_self]
  · intro hfresh
    cases hbs : d.NewBlockstore cfg.blockstorePath cfg.id kp.address <;>
      simp [setupBlockstore, hbs, hfresh, World.log]

/-- Instance of `setupBlockstore_start_block`: a store holding height 100 against a
configured height 10, read with freshStart off and skipped with freshStart on. -/
theorem setupBlockstore_start_block_witness :
    (setupBlockstore (sampleDeps (sampleConfig false 10 1 0 0) 100 50 [] false)
        (sampleConfig false 10 1 0 0) { address := "0xff93" } World.empty).1.1.startBlock
      = max 10 100 ∧
    (setupBlockstore (sampleDeps (sampleConfig true 10 1 0 0) 100 50 [] false)
        (sampleConfig true 10 1 0 0) { address := "0xff93" } World.empty).1.1
      = sampleConfig true 10 1 0 0 :=
  ⟨((setupBlockstore_start_block (sampleDeps (sampleConfig false 10 1 0 0) 100 50 [] false)
      (sampleConfig false 10 1 0 0) { address := "0xff93" } World.empty).1
      7 100 rfl rfl rfl).2.1,
   ((setupBlockstore_start_block (sampleDeps (sampleConfig true 10 1 0 0) 100 50 [] false)
      (sampleConfig true 10 1 0 0) { address := "0xff93" } World.empty).2 rfl).1⟩

/-- C4: `InitializeChain` returns no partial runtime. It returns either a nil chain with a
non-nil error, or a chain with a nil error; a failure of any step (configuration parsing,
keypair loading, a keypair that is not secp256k1, blockstore setup, be it opening the store
or reading the stored height, Connect, a bytecode check, the latest-block query) gives the
first; and a returned chain holds the connection and the stop channel that its listener and
its writer were built from. -/
theorem InitializeChain_all_or_nothing (d : Deps L W R) (chainCfg : ChainConfig)
    (logger : Logger) (sysErr : Chan) (m : Metrics) (w : World) :
    ((∃ err, (InitializeChain d chainCfg logger sysErr m w).1 = (none, some err)) ∨
      (∃ c conn stop cfg bs, (InitializeChain d chainCfg logger sysErr m w).1 = (some c, none) ∧
        c.conn = some conn ∧ c.stop = stop ∧ stop = some w.chans.length ∧
        c.listener = d.NewListener conn cfg logger bs stop sysErr m ∧
        c.writer = d.NewWriter conn cfg logger stop sysErr m)) ∧
    (∀ e, d.parseChainConfig chainCfg = Except.error e →
      (InitializeChain d chainCfg logger sysErr m w).1 = (none, some e)) ∧
    (∀ cfg0 e, d.parseChainConfig chainCfg = Except.ok cfg0 →
      d.KeypairFromAddress cfg0.fromAddr cfg0.keystorePath chainCfg.Insecure = Except.error e →
      (InitializeChain d chainCfg logger sysErr m w).1 = (none, some e)) ∧
    (∀ cfg0, d.parseChainConfig chainCfg = Except.ok cfg0 →
      d.KeypairFromAddress cfg0.fromAddr cfg0.keystorePath chainCfg.Insecure =
        Except.ok KeypairI.other →
      (InitializeChain d chainCfg logger sysErr m w).1 =
        (none, some "keypair type is not secp256k1")) ∧
    (∀ cfg0 kp cfg1 bs e, d.parseChainConfig chainCfg = Except.ok cfg0 →
      d.KeypairFromAddress cfg0.fromAddr cfg0.keystorePath chainCfg.Insecure =
        Except.ok (KeypairI.secp256k1 kp) →
      (setupBlockstore d cfg0 kp
        ((w.log Call.parseChainConfig).log Call.KeypairFromAddress)).1 = (cfg1, bs, some e) →
      (InitializeChain d chainCfg logger sysErr m w).1 = (none, some e)) ∧
    (∀ cfg0 kp e, d.parseChainConfig chainCfg = Except.ok cfg0 →
      d.KeypairFromAddress cfg0.fromAddr cfg0.keystorePath chainCfg.Insecure =
        Except.ok (KeypairI.secp256k1 kp) →
      d.NewBlockstore cfg0.blockstorePath cfg0.id kp.address = Except.error e →
      (InitializeChain d chainCfg logger sysErr m w).1 = (none, some e)) ∧
    (∀ cfg0 kp bs e, d.parseChainConfig chainCfg = Except.ok cfg0 →
      d.KeypairFromAddress cfg0.fromAddr cfg0.keystorePath chainCfg.Insecure =
        Except.ok (KeypairI.secp256k1 kp) →
      d.NewBlockstore cfg0.blockstorePath cfg0.id kp.address = Except.ok bs →
      cfg0.freshStart = false →
      d.TryLoadLatestBlock bs = Except.error e →
      (InitializeChain d chainCfg logger sysErr m w).1 = (none, some e)) ∧
    (∀ kp cfg bs e, Prepared d chainCfg w kp cfg bs →
      d.Connect (connOf d cfg kp logger) = some e →
      (InitializeChain d chainCfg logger sysErr m w).1 = (none, some e)) ∧
    (∀ kp cfg bs, Prepared d chainCfg w kp cfg bs →
      (d.Connect (connOf d cfg kp logger) ≠ none ∨
        d.EnsureHasBytecode (connOf d cfg kp logger) cfg.bridgeContract ≠ none ∨
        (cfg.erc20HandlerContract ≠ ZeroAddress ∧
          d.EnsureHasBytecode (connOf d cfg kp logger) cfg.erc20HandlerContract ≠ none) ∨
        (cfg.genericHandlerContract ≠ ZeroAddress ∧
          d.EnsureHasBytecode (connOf d cfg kp logger) cfg.genericHandlerContract ≠ none) ∨
        (chainCfg.LatestBlock = true ∧
          ∃ e, d.LatestBlock (connOf d cfg kp logger) = Except.error e)) →
      ∃ err, (InitializeChain d chainCfg logger sysErr m w).1 = (none, some err)) := by
  refine ⟨?_, ?_, ?_, ?_, ?_, ?_, ?_, ?_, ?_⟩
  · rcases InitializeChain_shape d chainCfg logger sysErr m w with h | h
    · exact Or.inl h
    · obtain ⟨kp, cfg1, bs, cfg2, -, -, -, -, -, -, -, hret⟩ := h
      exact Or.inr ⟨_, connOf d cfg1 kp logger, some w.chans.length, cfg2, bs, hret, rfl, rfl,
        rfl, rfl, rfl⟩
  · intro e hp
    simp only [InitializeChain, hp]
  · intro cfg0 e hp hk
    simp only [InitializeChain, hp, hk]
  · intro cfg0 hp hk
    simp only [InitializeChain, hp, hk]
  · intro cfg0 kp cfg1 bs e hp hk hsb
    rcases hs : setupBlockstore d cfg0 kp
      ((w.log Call.parseChainConfig).log Call.KeypairFromAddress) with ⟨⟨c1, b1, e1⟩, w1⟩
    rw [hs] at hsb
    cases hsb
    simp only [InitializeChain, hp, hk, hs]
  · intro cfg0 kp e hp hk hbs
    simp only [InitializeChain, hp, hk, setupBlockstore, hbs]
  · intro cfg0 kp bs e hp hk hbs hfresh hload
    simp [InitializeChain, hp, hk, setupBlockstore, hbs, hfresh, hload]
  · intro kp cfg bs e hprep hc
    obtain ⟨cfg0, hp, hk, hsb⟩ := hprep
    rcases hs : setupBlockstore d cfg0 kp
      ((w.log Call.parseChainConfig).log Call.KeypairFromAddress) with ⟨⟨c1, b1, e1⟩, w1⟩
    rw [hs] at hsb
    cases hsb
    simp only [connOf] at hc
    simp only [InitializeChain, hp, hk, hs, World.makeChan, hc]
  · intro kp cfg bs hprep hfail
    rcases InitializeChain_shape d chainCfg logger sysErr m w with h | h
    · exact h
    · exfalso
      obtain ⟨kp', cfg1, bs', cfg2, hprep', hc, hb, h20, hgen, hlat, -, -⟩ := h
      obtain ⟨rfl, rfl, rfl⟩ := hprep.unique hprep'
      rcases hfail with h | h | ⟨hz, h⟩ | ⟨hz, h⟩ | ⟨hl, e, h⟩
      · exact h hc
      · exact h hb
      · exact h (h20 hz)
      · exact h (hgen hz)
      · obtain ⟨curr, hcurr, -⟩ := hlat hl
        rw [h] at hcurr
        cases hcurr

end

/-- Instance of `InitializeChain_all_or_nothing`: with every step succeeding a chain is
returned with a nil error; with the bridge contract lacking bytecode, with a blockstore
that cannot be opened, or with a stored height that cannot be read, nothing is. -/
theorem InitializeChain_all_or_nothing_witness :
    (InitializeChain (sampleDeps (sampleConfig false 0 1 0 0) 100 50 [] false)
        (sampleChainConfig false) 0 none none World.empty).1
      = (some (sampleChain ((sampleConfig false 0 1 0 0).setStartBlock 100)), none) ∧
    (∃ err, (InitializeChain (sampleDeps (sampleConfig false 0 1 0 0) 100 50 [1] false)
        (sampleChainConfig false) 0 none none World.empty).1 = (none, some err)) ∧
    (InitializeChain (sampleDepsNoStore (sampleConfig false 0 1 0 0))
        (sampleChainConfig false) 0 none none World.empty).1
      = (none, some "blockstore unavailable") ∧
    (InitializeChain (sampleDepsUnreadableStore (sampleConfig false 0 1 0 0))
        (sampleChainConfig false) 0 none none World.empty).1
      = (none, some "blockstore unreadable") :=
  ⟨rfl,
    (InitializeChain_all_or_nothing (sampleDeps (sampleConfig false 0 1 0 0) 100 50 [1] false)
      (sampleChainConfig false) 0 none none World.empty).2.2.2.2.2.2.2.2
      { address := "0xff93" } ((sampleConfig false 0 1 0 0).setStartBlock 100) (some 7)
      ⟨sampleConfig false 0 1 0 0, rfl, rfl, rfl⟩
      (Or.inr (Or.inl (by decide))),
    (InitializeChain_all_or_nothing (sampleDepsNoStore (sampleConfig false 0 1 0 0))
      (sampleChainConfig false) 0 none none World.empty).2.2.2.2.2.1
      (sampleConfig false 0 1 0 0) { address := "0xff93" } "blockstore unavailable"
      rfl rfl rfl,
    (InitializeChain_all_or_nothing (sampleDepsUnreadableStore (sampleConfig false 0 1 0 0))
      (sampleChainConfig false) 0 none none World.empty).2.2.2.2.2.2.1
      (sampleConfig false 0 1 0 0) { address := "0xff93" } 7 "blockstore unreadable"
      rfl rfl rfl rfl rfl⟩

section
variable {L W R : Type}

/-- The configuration `setupBlockstore` leaves differs from the one it was given in the
start block at most. -/
theorem setupBlockstore_cfg (d : Deps L W R) (cfg : Config) (kp : Keypair) (w : World) :
    ∃ x, (setupBlockstore d cfg kp w).1.1 = cfg.setStartBlock x := by
  cases h1 : d.NewBlockstore cfg.blockstorePath cfg.id kp.address with
  | error e => exact ⟨cfg.startBlock, by simp [setupBlockstore, h1, Config.setStartBlock_self]⟩
  | ok bs =>
    cases h2 : cfg.freshStart with
    | true => exact ⟨cfg.startBlock, by simp [setupBlockstore, h1, h2, Config.setStartBlock_self]⟩
    | false =>
      cases h3 : d.TryLoadLatestBlock bs with
      | error e =>
        exact ⟨cfg.startBlock, by simp [setupBlockstore, h1, h2, h3, Config.setStartBlock_self]⟩
      | ok b =>
        by_cases h : bigCmp b cfg.startBlock = 1
        · exact ⟨b, by simp [setupBlockstore, h1, h2, h3, h]⟩
        · exact ⟨cfg.startBlock, by
            simp [setupBlockstore, h1, h2, h3, h, Config.setStartBlock_self]⟩

/-- A blockstore returned without error is the one `NewBlockstore` opened. -/
theorem setupBlockstore_bs (d : Deps L W R) (cfg cfg1 : Config) (kp : Keypair) (w : World)
    (bs : Blockstore) (bs1 : Option Blockstore)
    (hbs : d.NewBlockstore cfg.blockstorePath cfg.id kp.address = Except.ok bs)
    (h : (setupBlockstore d cfg kp w).1 = (cfg1, bs1, none)) : bs1 = some bs := by
  cases h2 : cfg.freshStart with
  | true =>
    rw [setupBlockstore_fresh d cfg kp w bs h2 hbs] at h
    cases h; rfl
  | false =>
    cases h3 : d.TryLoadLatestBlock bs with
    | error e => simp [setupBlockstore, hbs, h2, h3] at h
    | ok b =>
      rw [setupBlockstore_loaded d cfg kp w bs b h2 hbs h3] at h
      cases h; rfl

theorem Config.setStartBlock_setStartBlock (cfg : Config) (a b : Int) :
    (cfg.setStartBlock a).setStartBlock b = cfg.setStartBlock b := rfl

/-- C1 (amended): when `InitializeChain` returns a chain, the configuration it hands to the
listener has this start block. With freshStart off and the latest-block override off it is
the maximum of the configured height and the stored checkpoint, hence never lower than the
checkpoint. With freshStart on (override off) it is the configured height, the checkpoint
not being read. With the latest-block override on it is the chain head reported by the
connection, whatever the checkpoint. -/
theorem InitializeChain_start_height (d : Deps L W R) (chainCfg : ChainConfig)
    (logger : Logger) (sysErr : Chan) (m : Metrics) (w : World) (cfg0 : Config)
    (kp : Keypair) (bs : Blockstore) (c : Chain L W)
    (hp : d.parseChainConfig chainCfg = Except.ok cfg0)
    (hk : d.KeypairFromAddress cfg0.fromAddr cfg0.keystorePath chainCfg.Insecure =
      Except.ok (KeypairI.secp256k1 kp))
    (hbs : d.NewBlockstore cfg0.blockstorePath cfg0.id kp.address = Except.ok bs)
    (hret : (InitializeChain d chainCfg logger sysErr m w).1 = (some c, none)) :
    (∀ b, cfg0.freshStart = false → chainCfg.LatestBlock = false →
      d.TryLoadLatestBlock bs = Except.ok b →
      c.listener = d.NewListener (connOf d cfg0 kp logger)
        (cfg0.setStartBlock (max cfg0.startBlock b)) logger (some bs) c.stop sysErr m ∧
      b ≤ (cfg0.setStartBlock (max cfg0.startBlock b)).startBlock) ∧
    (cfg0.freshStart = true → chainCfg.LatestBlock = false →
      c.listener = d.NewListener (connOf d cfg0 kp logger) cfg0 logger (some bs) c.stop
        sysErr m) ∧
    (chainCfg.LatestBlock = true →
      ∃ curr, d.LatestBlock (connOf d cfg0 kp logger) = Except.ok curr ∧
        c.listener = d.NewListener (connOf d cfg0 kp logger) (cfg0.setStartBlock curr) logger
          (some bs) c.stop sysErr m ∧
        (cfg0.setStartBlock curr).startBlock = curr) := by
  rcases InitializeChain_shape d chainCfg logger sysErr m w with ⟨err, h⟩ | h
  · rw [h] at hret; cases hret
  obtain ⟨kp', cfg1, bs', cfg2, hprep, -, -, -, -, hlat, hnolat, hret'⟩ := h
  rw [hret'] at hret
  obtain ⟨c0, hp', hk', hsb⟩ := hprep
  rw [hp] at hp'
  cases hp'
  rw [hk] at hk'
  cases hk'
  have hbs' : bs' = some bs := setupBlockstore_bs d cfg0 cfg1 kp _ bs bs' hbs hsb
  subst hbs'
  have hcl : c.listener = d.NewListener (connOf d cfg1 kp logger) cfg2 logger (some bs)
      (some w.chans.length) sysErr m := by
    cases hret; rfl
  have hcs : c.stop = some w.chans.length := by
    cases hret; rfl
  obtain ⟨x, hx⟩ := setupBlockstore_cfg d cfg0 kp
    ((w.log Call.parseChainConfig).log Call.KeypairFromAddress)
  rw [hsb] at hx
  have hx : cfg1 = cfg0.setStartBlock x := hx
  have hconn : connOf d cfg1 kp logger = connOf d cfg0 kp logger := by
    rw [hx]; rfl
  refine ⟨?_, ?_, ?_⟩
  · intro b hfresh hl hload
    rw [setupBlockstore_loaded d cfg0 kp _ bs b hfresh hbs hload] at hsb
    have h1 : cfg1 = cfg0.setStartBlock (max cfg0.startBlock b) := by
      cases hsb; rfl
    have h2 : cfg2 = cfg1 := hnolat hl
    refine ⟨?_, ?_⟩
    · rw [hcl, hcs, h2, hconn, h1]
    · show b ≤ max cfg0.startBlock b
      exact le_max_right _ _
  · intro hfresh hl
    rw [setupBlockstore_fresh d cfg0 kp _ bs hfresh hbs] at hsb
    have h1 : cfg1 = cfg0 := by
      cases hsb; rfl
    have h2 : cfg2 = cfg1 := hnolat hl
    rw [hcl, hcs, h2, hconn, h1]
  · intro hl
    obtain ⟨curr, hcurr, h2⟩ := hlat hl
    refine ⟨curr, ?_, ?_, rfl⟩
    · rw [← hconn]; exact hcurr
    · rw [hcl, hcs, h2, hconn, hx, Config.setStartBlock_setStartBlock]

end

/-- Instance of `InitializeChain_start_height`: configured height 10, checkpoint 100,
freshStart off and latest-block override off; the listener is handed height 100. -/
theorem InitializeChain_start_height_witness :
    (InitializeChain (sampleDeps (sampleConfig false 10 1 0 0) 100 50 [] false)
        (sampleChainConfig false) 0 none none World.empty).1.1.map
      (fun c => c.listener.cfg.startBlock) = some 100 ∧
    (100 : Int) ≤ ((sampleConfig false 10 1 0 0).setStartBlock (max 10 100)).startBlock :=
  ⟨rfl,
   ((InitializeChain_start_height (sampleDeps (sampleConfig false 10 1 0 0) 100 50 [] false)
      (sampleChainConfig false) 0 none none World.empty (sampleConfig false 10 1 0 0)
      { address := "0xff93" } 7 _ rfl rfl rfl rfl).1 100 rfl rfl rfl).2⟩

/-- C1 (as stated) fails. With freshStart on, configured height 0 and checkpoint 100 for
the (chain id, account) pair, the listener is handed height 0. With the latest-block
override on, checkpoint 100 and chain head 50, the listener is handed height 50. -/
theorem InitializeChain_start_below_checkpoint :
    ((sampleDeps (sampleConfig true 0 1 0 0) 100 50 [] false).NewBlockstore
        "blockstore" 5 "0xff93" = Except.ok 7 ∧
      (sampleDeps (sampleConfig true 0 1 0 0) 100 50 [] false).TryLoadLatestBlock 7
        = Except.ok 100 ∧
      (InitializeChain (sampleDeps (sampleConfig true 0 1 0 0) 100 50 [] false)
          (sampleChainConfig false) 0 none none World.empty).1.1.map
        (fun c => c.listener.cfg.startBlock) = some 0 ∧
      (InitializeChain (sampleDeps (sampleConfig true 0 1 0 0) 100 50 [] false)
          (sampleChainConfig false) 0 none none World.empty).1.2 = none ∧
      (0 : Int) < 100) ∧
    ((sampleDeps (sampleConfig false 0 1 0 0) 100 50 [] false).TryLoadLatestBlock 7
        = Except.ok 100 ∧
      (InitializeChain (sampleDeps (sampleConfig false 0 1 0 0) 100 50 [] false)
          (sampleChainConfig true) 0 none none World.empty).1.1.map
        (fun c => c.listener.cfg.startBlock) = some 50 ∧
      (InitializeChain (sampleDeps (sampleConfig false 0 1 0 0) 100 50 [] false)
          (sampleChainConfig true) 0 none none World.empty).1.2 = none ∧
      (50 : Int) < 100) :=
  ⟨⟨rfl, rfl, rfl, rfl, by decide⟩, ⟨rfl, rfl, rfl, by decide⟩⟩


section
variable {L W R : Type}

/-- When every check that is made passes, a chain is returned: the checks of lines 92-113
pass and the latest-block query, if asked for, succeeds. -/
theorem InitializeChain_returns_chain (d : Deps L W R) (chainCfg : ChainConfig)
    (logger : Logger) (sysErr : Chan) (m : Metrics) (w : World) (kp : Keypair) (cfg : Config)
    (bs : Option Blockstore) (hprep : Prepared d chainCfg w kp cfg bs)
    (hc : d.Connect (connOf d cfg kp logger) = none)
    (hb : d.EnsureHasBytecode (connOf d cfg kp logger) cfg.bridgeContract = none)
    (h20 : cfg.erc20HandlerContract ≠ ZeroAddress →
      d.EnsureHasBytecode (connOf d cfg kp logger) cfg.erc20HandlerContract = none)
    (hgen : cfg.genericHandlerContract ≠ ZeroAddress →
      d.EnsureHasBytecode (connOf d cfg kp logger) cfg.genericHandlerContract = none)
    (hlat : chainCfg.LatestBlock = true →
      ∃ curr, d.LatestBlock (connOf d cfg kp logger) = Except.ok curr) :
    ∃ c, (InitializeChain d chainCfg logger sysErr m w).1 = (some c, none) := by
  rcases InitializeChain_shape d chainCfg logger sysErr m w with ⟨err, he⟩ | hs
  · exfalso
    obtain ⟨cfg0, hp, hk, hsb⟩ := hprep
    rcases hs : setupBlockstore d cfg0 kp
      ((w.log Call.parseChainConfig).log Call.KeypairFromAddress) with ⟨⟨c1, b1, e1⟩, w1⟩
    rw [hs] at hsb
    cases hsb
    simp only [connOf] at hc hb h20 hgen hlat
    cases hl : chainCfg.LatestBlock with
    | false =>
      by_cases hz : cfg.erc20HandlerContract = ZeroAddress <;>
      by_cases hzg : cfg.genericHandlerContract = ZeroAddress <;>
      simp [InitializeChain, hp, hk, hs, World.makeChan, hc, hb, hz, hzg, hl, h20, hgen] at he
    | true =>
      obtain ⟨curr, hcurr⟩ := hlat hl
      by_cases hz : cfg.erc20HandlerContract = ZeroAddress <;>
      by_cases hzg : cfg.genericHandlerContract = ZeroAddress <;>
      simp [InitializeChain, hp, hk, hs, World.makeChan, hc, hb, hz, hzg, hl, h20, hgen,
        hcurr] at he
  · obtain ⟨_, _, _, _, _, _, _, _, _, _, _, hret⟩ := hs
    exact ⟨_, hret⟩

/-- The outcome of `InitializeChain`, calls included, depends on `EnsureHasBytecode` only
at the bridge address and at the handler addresses that are not the zero address. -/
theorem InitializeChain_unchecked (d : Deps L W R) (chainCfg : ChainConfig)
    (logger : Logger) (sysErr : Chan) (m : Metrics) (w : World)
    (f : Connection → Address → Option Err)
    (hf : ∀ cfg, d.parseChainConfig chainCfg = Except.ok cfg → ∀ conn,
      f conn cfg.bridgeContract = d.EnsureHasBytecode conn cfg.bridgeContract ∧
      (cfg.erc20HandlerContract ≠ ZeroAddress →
        f conn cfg.erc20HandlerContract = d.EnsureHasBytecode conn cfg.erc20HandlerContract) ∧
      (cfg.genericHandlerContract ≠ ZeroAddress →
        f conn cfg.genericHandlerContract =
          d.EnsureHasBytecode conn cfg.genericHandlerContract)) :
    InitializeChain { d with EnsureHasBytecode := f } chainCfg logger sysErr m w =
      InitializeChain d chainCfg logger sysErr m w := by
  cases hp : d.parseChainConfig chainCfg with
  | error e => simp only [InitializeChain, hp]
  | ok cfg0 =>
  cases hk : d.KeypairFromAddress cfg0.fromAddr cfg0.keystorePath chainCfg.Insecure with
  | error e => simp only [InitializeChain, hp, hk]
  | ok kpI =>
  cases kpI with
  | other => simp only [InitializeChain, hp, hk]
  | secp256k1 kp =>
  have hsame : setupBlockstore { d with EnsureHasBytecode := f } cfg0 kp
      ((w.log Call.parseChainConfig).log Call.KeypairFromAddress) =
      setupBlockstore d cfg0 kp ((w.log Call.parseChainConfig).log Call.KeypairFromAddress) :=
    rfl
  obtain ⟨x, hx⟩ := setupBlockstore_cfg d cfg0 kp
    ((w.log Call.parseChainConfig).log Call.KeypairFromAddress)
  rcases hs : setupBlockstore d cfg0 kp
    ((w.log Call.parseChainConfig).log Call.KeypairFromAddress) with ⟨⟨cfg1, bs, e⟩, w1⟩
  rw [hs] at hx
  have hx1 : cfg1 = cfg0.setStartBlock x := hx
  cases e with
  | some err => simp only [InitializeChain, hp, hk, hsame, hs]
  | none =>
  have hfb := fun conn => (hf cfg0 hp conn).1
  have hf20 := fun conn => (hf cfg0 hp conn).2.1
  have hfg := fun conn => (hf cfg0 hp conn).2.2
  have e1 : cfg1.bridgeContract = cfg0.bridgeContract := by rw [hx1]; rfl
  have e2 : cfg1.erc20HandlerContract = cfg0.erc20HandlerContract := by rw [hx1]; rfl
  have e3 : cfg1.genericHandlerContract = cfg0.genericHandlerContract := by rw [hx1]; rfl
  by_cases hz : cfg0.erc20HandlerContract = ZeroAddress <;>
  by_cases hzg : cfg0.genericHandlerContract = ZeroAddress <;>
  simp [InitializeChain, hp, hk, hsame, hs, World.makeChan, e1, e2, e3, hz, hzg, hfb, hf20, hfg]

end

section
variable {L W R : Type}

/-- The calls `setupBlockstore` adds are `NewBlockstore` and `TryLoadLatestBlock` only. -/
theorem setupBlockstore_calls (d : Deps L W R) (cfg : Config) (kp : Keypair) (w : World)
    (c : Call) (hc : c ∈ (setupBlockstore d cfg kp w).2.calls) :
    c ∈ w.calls ∨ c = Call.NewBlockstore ∨ c = Call.TryLoadLatestBlock := by
  cases h1 : d.NewBlockstore cfg.blockstorePath cfg.id kp.address with
  | error e =>
    simp [setupBlockstore, h1, World.log] at hc
    tauto
  | ok bs =>
    cases h2 : cfg.freshStart with
    | true =>
      simp [setupBlockstore, h1, h2, World.log] at hc
      tauto
    | false =>
      cases h3 : d.TryLoadLatestBlock bs with
      | error e =>
        simp [setupBlockstore, h1, h2, h3, World.log] at hc
        tauto
      | ok b =>
        by_cases h : bigCmp b cfg.startBlock = 1 <;>
          simp [setupBlockstore, h1, h2, h3, h, World.log] at hc <;> tauto

set_option maxHeartbeats 2000000 in
/-- The only addresses `InitializeChain` calls `EnsureHasBytecode` on are the bridge
contract and the handlers that are not at the zero address. -/
theorem InitializeChain_ensure_calls (d : Deps L W R) (chainCfg : ChainConfig)
    (logger : Logger) (sysErr : Chan) (m : Metrics) (w : World) (cfg0 : Config)
    (hp : d.parseChainConfig chainCfg = Except.ok cfg0) (a : Address)
    (ha : Call.EnsureHasBytecode a ∈ (InitializeChain d chainCfg logger sysErr m w).2.calls) :
    Call.EnsureHasBytecode a ∈ w.calls ∨ a = cfg0.bridgeContract ∨
      (a = cfg0.erc20HandlerContract ∧ cfg0.erc20HandlerContract ≠ ZeroAddress) ∨
      (a = cfg0.genericHandlerContract ∧ cfg0.genericHandlerContract ≠ ZeroAddress) := by
  cases hk : d.KeypairFromAddress cfg0.fromAddr cfg0.keystorePath chainCfg.Insecure with
  | error e =>
    simp [InitializeChain, hp, hk, World.log] at ha
    exact Or.inl ha
  | ok kpI =>
  cases kpI with
  | other =>
    simp [InitializeChain, hp, hk, World.log] at ha
    exact Or.inl ha
  | secp256k1 kp =>
  obtain ⟨x, hx⟩ := setupBlockstore_cfg d cfg0 kp
    ((w.log Call.parseChainConfig).log Call.KeypairFromAddress)
  have hcalls := setupBlockstore_calls d cfg0 kp
    ((w.log Call.parseChainConfig).log Call.KeypairFromAddress) (Call.EnsureHasBytecode a)
  rcases hs : setupBlockstore d cfg0 kp
    ((w.log Call.parseChainConfig).log Call.KeypairFromAddress) with ⟨⟨cfg1, bs, e⟩, w1⟩
  rw [hs] at hx hcalls
  have hx1 : cfg1 = cfg0.setStartBlock x := hx
  have hw1 : Call.EnsureHasBytecode a ∈ w1.calls → Call.EnsureHasBytecode a ∈ w.calls := by
    intro h
    rcases hcalls h with h | h | h
    · simpa [World.log] using h
    · cases h
    · cases h
  have e1 : cfg1.bridgeContract = cfg0.bridgeContract := by rw [hx1]; rfl
  have e2 : cfg1.erc20HandlerContract = cfg0.erc20HandlerContract := by rw [hx1]; rfl
  have e3 : cfg1.genericHandlerContract = cfg0.genericHandlerContract := by rw [hx1]; rfl
  cases e with
  | some err =>
    simp only [InitializeChain, hp, hk, hs] at ha
    exact Or.inl (hw1 ha)
  | none =>
  simp only [InitializeChain, hp, hk, hs] at ha
  cases hc : d.Connect (connOf d cfg1 kp logger) with
  | some err =>
    simp only [connOf] at hc
    simp [World.makeChan, hc, World.log] at ha
    exact Or.inl (hw1 ha)
  | none =>
  cases hb : d.EnsureHasBytecode (connOf d cfg1 kp logger) cfg1.bridgeContract with
  | some err =>
    simp only [connOf] at hc hb
    simp [World.makeChan, hc, hb, World.log] at ha
    rcases ha with ha | ha
    · exact Or.inl (hw1 ha)
    · exact Or.inr (Or.inl (ha.trans e1))
  | none =>
  simp only [connOf] at hc hb
  simp only [World.makeChan, hc, hb, World.log] at ha
  have key : Call.EnsureHasBytecode a ∈ w1.calls ∨ a = cfg1.bridgeContract ∨
      (a = cfg1.erc20HandlerContract ∧ cfg1.erc20HandlerContract ≠ ZeroAddress) ∨
      (a = cfg1.genericHandlerContract ∧ cfg1.genericHandlerContract ≠ ZeroAddress) := by
    have h20 : ∃ r20 : Option Err, r20 = d.EnsureHasBytecode (d.NewConnection cfg1.endpoint
        cfg1.http kp logger cfg1.gasLimit cfg1.maxGasPrice cfg1.minGasPrice cfg1.gasMultiplier
        cfg1.egsApiKey cfg1.egsSpeed) cfg1.erc20HandlerContract := ⟨_, rfl⟩
    obtain ⟨r20, h20⟩ := h20
    rw [← h20] at ha
    have hg : ∃ rg : Option Err, rg = d.EnsureHasBytecode (d.NewConnection cfg1.endpoint
        cfg1.http kp logger cfg1.gasLimit cfg1.maxGasPrice cfg1.minGasPrice cfg1.gasMultiplier
        cfg1.egsApiKey cfg1.egsSpeed) cfg1.genericHandlerContract := ⟨_, rfl⟩
    obtain ⟨rg, hg⟩ := hg
    rw [← hg] at ha
    have hlb : ∃ rl : Except Err Int, rl = d.LatestBlock (d.NewConnection cfg1.endpoint
        cfg1.http kp logger cfg1.gasLimit cfg1.maxGasPrice cfg1.minGasPrice cfg1.gasMultiplier
        cfg1.egsApiKey cfg1.egsSpeed) := ⟨_, rfl⟩
    obtain ⟨rl, hlb⟩ := hlb
    rw [← hlb] at ha
    by_cases hz : cfg1.erc20HandlerContract = ZeroAddress
    · by_cases hzg : cfg1.genericHandlerContract = ZeroAddress
      · cases hl : chainCfg.LatestBlock <;> cases rl <;>
          simp [hz, hzg, hl] at ha <;> tauto
      · cases rg with
        | some err => simp [hz, hzg] at ha; tauto
        | none =>
          cases hl : chainCfg.LatestBlock <;> cases rl <;>
            simp [hz, hzg, hl] at ha <;> tauto
    · cases r20 with
      | some err => simp [hz] at ha; tauto
      | none =>
        by_cases hzg : cfg1.genericHandlerContract = ZeroAddress
        · cases hl : chainCfg.LatestBlock <;> cases rl <;>
            simp [hz, hzg, hl] at ha <;> tauto
        · cases rg with
          | some err => simp [hz, hzg] at ha; tauto
          | none =>
            cases hl : chainCfg.LatestBlock <;> cases rl <;>
              simp [hz, hzg, hl] at ha <;> tauto
  rw [e1, e2, e3] at key
  rcases key with h | h | h | h
  · exact Or.inl (hw1 h)
  · exact Or.inr (Or.inl h)
  · exact Or.inr (Or.inr (Or.inl h))
  · exact Or.inr (Or.inr (Or.inr h))

end

section
variable {L W R : Type}

/-- C8: once the connection is up, `InitializeChain` verifies bytecode presence for the
bridge contract and for every configured handler contract. It returns no chain and the
`EnsureHasBytecode` error whenever the bridge address has no bytecode, or a handler address
that is configured (not the zero address) has none, the error being that of the first check
that fails. A handler left at the zero address is not checked and does not cause failure:
when the checks of the bridge and of the non-zero handlers pass a chain is returned, the
only `EnsureHasBytecode` calls made are on the bridge and on non-zero handlers, and the
outcome does not depend on what `EnsureHasBytecode` would answer anywhere else. -/
theorem InitializeChain_bytecode_verified (d : Deps L W R) (chainCfg : ChainConfig)
    (logger : Logger) (sysErr : Chan) (m : Metrics) (w : World) (kp : Keypair) (cfg : Config)
    (bs : Option Blockstore) (hprep : Prepared d chainCfg w kp cfg bs)
    (hc : d.Connect (connOf d cfg kp logger) = none) :
    (∀ e, d.EnsureHasBytecode (connOf d cfg kp logger) cfg.bridgeContract = some e →
      (InitializeChain d chainCfg logger sysErr m w).1 = (none, some e)) ∧
    (∀ e, d.EnsureHasBytecode (connOf d cfg kp logger) cfg.bridgeContract = none →
      cfg.erc20HandlerContract ≠ ZeroAddress →
      d.EnsureHasBytecode (connOf d cfg kp logger) cfg.erc20HandlerContract = some e →
      (InitializeChain d chainCfg logger sysErr m w).1 = (none, some e)) ∧
    (∀ e, d.EnsureHasBytecode (connOf d cfg kp logger) cfg.bridgeContract = none →
      (cfg.erc20HandlerContract ≠ ZeroAddress →
        d.EnsureHasBytecode (connOf d cfg kp logger) cfg.erc20HandlerContract = none) →
      cfg.genericHandlerContract ≠ ZeroAddress →
      d.EnsureHasBytecode (connOf d cfg kp logger) cfg.genericHandlerContract = some e →
      (InitializeChain d chainCfg logger sysErr m w).1 = (none, some e)) ∧
    ((d.EnsureHasBytecode (connOf d cfg kp logger) cfg.bridgeContract ≠ none ∨
        (cfg.erc20HandlerContract ≠ ZeroAddress ∧
          d.EnsureHasBytecode (connOf d cfg kp logger) cfg.erc20HandlerContract ≠ none) ∨
        (cfg.genericHandlerContract ≠ ZeroAddress ∧
          d.EnsureHasBytecode (connOf d cfg kp logger) cfg.genericHandlerContract ≠ none)) →
      ∃ a e, (a = cfg.bridgeContract ∨
          (a = cfg.erc20HandlerContract ∧ cfg.erc20HandlerContract ≠ ZeroAddress) ∨
          (a = cfg.genericHandlerContract ∧ cfg.genericHandlerContract ≠ ZeroAddress)) ∧
        d.EnsureHasBytecode (connOf d cfg kp logger) a = some e ∧
        (InitializeChain d chainCfg logger sysErr m w).1 = (none, some e)) ∧
    (d.EnsureHasBytecode (connOf d cfg kp logger) cfg.bridgeContract = none →
      (cfg.erc20HandlerContract ≠ ZeroAddress →
        d.EnsureHasBytecode (connOf d cfg kp logger) cfg.erc20HandlerContract = none) →
      (cfg.genericHandlerContract ≠ ZeroAddress →
        d.EnsureHasBytecode (connOf d cfg kp logger) cfg.genericHandlerContract = none) →
      (chainCfg.LatestBlock = true →
        ∃ curr, d.LatestBlock (connOf d cfg kp logger) = Except.ok curr) →
      ∃ c, (InitializeChain d chainCfg logger sysErr m w).1 = (some c, none)) ∧
    (∀ a, Call.EnsureHasBytecode a ∈ (InitializeChain d chainCfg logger sysErr m w).2.calls →
      Call.EnsureHasBytecode a ∈ w.calls ∨ a = cfg.bridgeContract ∨
        (a = cfg.erc20HandlerContract ∧ cfg.erc20HandlerContract ≠ ZeroAddress) ∨
        (a = cfg.genericHandlerContract ∧ cfg.genericHandlerContract ≠ ZeroAddress)) ∧
    (∀ f : Connection → Address → Option Err,
      (∀ conn, f conn cfg.bridgeContract = d.EnsureHasBytecode conn cfg.bridgeContract) →
      (cfg.erc20HandlerContract ≠ ZeroAddress → ∀ conn,
        f conn cfg.erc20HandlerContract = d.EnsureHasBytecode conn cfg.erc20HandlerContract) →
      (cfg.genericHandlerContract ≠ ZeroAddress → ∀ conn,
        f conn cfg.genericHandlerContract =
          d.EnsureHasBytecode conn cfg.genericHandlerContract) →
      InitializeChain { d with EnsureHasBytecode := f } chainCfg logger sysErr m w =
        InitializeChain d chainCfg logger sysErr m w) := by
  have hchk := InitializeChain_bytecode_checked d chainCfg logger sysErr m w kp cfg bs hprep hc
  have hprep' := hprep
  obtain ⟨cfg0, hp, hk, hsb⟩ := hprep'
  obtain ⟨x, hx⟩ := setupBlockstore_cfg d cfg0 kp
    ((w.log Call.parseChainConfig).log Call.KeypairFromAddress)
  rw [hsb] at hx
  have hx1 : cfg = cfg0.setStartBlock x := hx
  have e1 : cfg0.bridgeContract = cfg.bridgeContract := by rw [hx1]; rfl
  have e2 : cfg0.erc20HandlerContract = cfg.erc20HandlerContract := by rw [hx1]; rfl
  have e3 : cfg0.genericHandlerContract = cfg.genericHandlerContract := by rw [hx1]; rfl
  refine ⟨hchk.1, hchk.2.1, hchk.2.2, ?_, ?_, ?_, ?_⟩
  · intro hfail
    cases hb : d.EnsureHasBytecode (connOf d cfg kp logger) cfg.bridgeContract with
    | some e => exact ⟨_, e, Or.inl rfl, hb, hchk.1 e hb⟩
    | none =>
      by_cases h20 : cfg.erc20HandlerContract ≠ ZeroAddress ∧
          d.EnsureHasBytecode (connOf d cfg kp logger) cfg.erc20HandlerContract ≠ none
      · obtain ⟨hz, hne⟩ := h20
        cases he : d.EnsureHasBytecode (connOf d cfg kp logger) cfg.erc20HandlerContract with
        | none => exact absurd he hne
        | some e => exact ⟨_, e, Or.inr (Or.inl ⟨rfl, hz⟩), he, hchk.2.1 e hb hz he⟩
      · have h20' : cfg.erc20HandlerContract ≠ ZeroAddress →
            d.EnsureHasBytecode (connOf d cfg kp logger) cfg.erc20HandlerContract = none := by
          intro hz
          by_contra hne
          exact h20 ⟨hz, hne⟩
        rcases hfail with h | h | ⟨hzg, hne⟩
        · exact absurd hb h
        · exact absurd h h20
        · cases he : d.EnsureHasBytecode (connOf d cfg kp logger)
              cfg.genericHandlerContract with
          | none => exact absurd he hne
          | some e =>
            exact ⟨_, e, Or.inr (Or.inr ⟨rfl, hzg⟩), he, hchk.2.2 e hb h20' hzg he⟩
  · intro hb h20 hgen hlat
    exact InitializeChain_returns_chain d chainCfg logger sysErr m w kp cfg bs hprep hc hb h20
      hgen hlat
  · intro a ha
    have h := InitializeChain_ensure_calls d chainCfg logger sysErr m w cfg0 hp a ha
    rw [e1, e2, e3] at h
    exact h
  · intro f hfb hf20 hfg
    apply InitializeChain_unchecked
    intro cfg' hp' conn
    rw [hp] at hp'
    cases hp'
    rw [e1, e2, e3]
    exact ⟨hfb conn, fun hz => hf20 hz conn, fun hz => hfg hz conn⟩

end

/-- Instance of `InitializeChain_bytecode_verified`. An erc20 handler configured at address
9, which has no bytecode, makes `InitializeChain` fail with the `EnsureHasBytecode` error.
With both handlers left at the zero address, which has no bytecode either, a chain is
returned. -/
theorem InitializeChain_bytecode_verified_witness :
    (sampleDeps (sampleConfig false 0 1 9 0) 100 50 [9] false).EnsureHasBytecode 3 9
      = some "no bytecode found at address" ∧
    (InitializeChain (sampleDeps (sampleConfig false 0 1 9 0) 100 50 [9] false)
        (sampleChainConfig false) 0 none none World.empty).1
      = (none, some "no bytecode found at address") ∧
    (sampleDeps (sampleConfig false 0 1 0 0) 100 50 [0] false).EnsureHasBytecode 3 ZeroAddress
      = some "no bytecode found at address" ∧
    ∃ c, (InitializeChain (sampleDeps (sampleConfig false 0 1 0 0) 100 50 [0] false)
        (sampleChainConfig false) 0 none none World.empty).1 = (some c, none) :=
  ⟨rfl,
    (InitializeChain_bytecode_verified (sampleDeps (sampleConfig false 0 1 9 0) 100 50 [9] false)
      (sampleChainConfig false) 0 none none World.empty { address := "0xff93" }
      ((sampleConfig false 0 1 9 0).setStartBlock 100) (some 7)
      ⟨sampleConfig false 0 1 9 0, rfl, rfl, rfl⟩ rfl).2.1
      "no bytecode found at address" rfl (by decide) rfl,
    rfl,
    (InitializeChain_bytecode_verified (sampleDeps (sampleConfig false 0 1 0 0) 100 50 [0] false)
      (sampleChainConfig false) 0 none none World.empty { address := "0xff93" }
      ((sampleConfig false 0 1 0 0).setStartBlock 100) (some 7)
      ⟨sampleConfig false 0 1 0 0, rfl, rfl, rfl⟩ rfl).2.2.2.2.1
      rfl (fun h => absurd rfl h) (fun h => absurd rfl h) (fun h => by cases h)⟩

/-! ## Running the chain runtime -/

section
variable {L W R : Type}

/-- C3 (amended): `Chain.Start` starts the listener first and the writer second. When
`listener.start` fails, the writer is never started and the error is returned. When
`writer.start` fails after the listener started, `Start` returns the writer's error having
done nothing more: no call follows `writer.start`, and the listener is left exactly as its
own `start` left it. -/
theorem Start_order (d : Deps L W R) (c : Chain L W) (w : World) :
    (∀ err l, d.listenerStart c.listener = (some err, l) →
      (Chain.Start d c w).1.1 = some err ∧
      (Chain.Start d c w).1.2.listener = l ∧
      (Chain.Start d c w).1.2.writer = c.writer ∧
      (Chain.Start d c w).2.calls = w.calls ++ [Call.listenerStart]) ∧
    (∀ l err x, d.listenerStart c.listener = (none, l) →
      d.writerStart c.writer = (some err, x) →
      (Chain.Start d c w).1.1 = some err ∧
      (Chain.Start d c w).1.2.listener = l ∧
      (Chain.Start d c w).1.2.writer = x ∧
      (Chain.Start d c w).2.calls = w.calls ++ [Call.listenerStart, Call.writerStart]) ∧
    (∀ l x, d.listenerStart c.listener = (none, l) →
      d.writerStart c.writer = (none, x) →
      (Chain.Start d c w).1.1 = none ∧
      (Chain.Start d c w).1.2.listener = l ∧
      (Chain.Start d c w).1.2.writer = d.writerLogDebug "Successfully started chain" x ∧
      (Chain.Start d c w).2.calls = w.calls ++ [Call.listenerStart, Call.writerStart,
        Call.writerLogDebug "Successfully started chain"]) := by
  refine ⟨?_, ?_, ?_⟩
  · intro err l hl
    simp [Chain.Start, hl, World.log]
  · intro l err x hl hw
    simp [Chain.Start, hl, hw, World.log]
  · intro l x hl hw
    simp [Chain.Start, hl, hw, World.log]

end

/-- Instance of `Start_order`: the writer fails to start after the listener started. -/
theorem Start_order_witness :
    (Chain.Start (sampleDeps (sampleConfig false 0 1 0 0) 100 50 [] true)
        (sampleChain (sampleConfig false 0 1 0 0)) sampleWorld).1.1
      = some "writer failed to start" ∧
    (Chain.Start (sampleDeps (sampleConfig false 0 1 0 0) 100 50 [] true)
        (sampleChain (sampleConfig false 0 1 0 0)) sampleWorld).2.calls
      = sampleWorld.calls ++ [Call.listenerStart, Call.writerStart] :=
  let h := (Start_order (sampleDeps (sampleConfig false 0 1 0 0) 100 50 [] true)
    (sampleChain (sampleConfig false 0 1 0 0)) sampleWorld).2.1 _ _ _ rfl rfl
  ⟨h.1, h.2.2.2⟩

/-- C3 (as stated) fails. The listener starts, the writer then fails to start, and `Start`
returns the error with the listener still running. -/
theorem Start_leaves_listener_running :
    (sampleChain (sampleConfig false 0 1 0 0)).listener.running = false ∧
    (sampleDeps (sampleConfig false 0 1 0 0) 100 50 [] true).listenerStart
        (sampleChain (sampleConfig false 0 1 0 0)).listener
      = (none, { (sampleChain (sampleConfig false 0 1 0 0)).listener with running := true }) ∧
    (Chain.Start (sampleDeps (sampleConfig false 0 1 0 0) 100 50 [] true)
        (sampleChain (sampleConfig false 0 1 0 0)) sampleWorld).1.1
      = some "writer failed to start" ∧
    (Chain.Start (sampleDeps (sampleConfig false 0 1 0 0) 100 50 [] true)
        (sampleChain (sampleConfig false 0 1 0 0)) sampleWorld).1.2.listener.running = true ∧
    (Chain.Start (sampleDeps (sampleConfig false 0 1 0 0) 100 50 [] true)
        (sampleChain (sampleConfig false 0 1 0 0)) sampleWorld).2.calls
      = [Call.makeChan 0, Call.listenerStart, Call.writerStart] :=
  ⟨rfl, rfl, rfl, rfl, rfl⟩


section
variable {L W R : Type}

/-- Result of `Chain.Stop` on an open stop channel. -/
theorem Stop_opened (c : Chain L W) (w : World) (i : Nat) (hstop : c.stop = some i)
    (hopen : w.chans[i]? = some ChanState.opened) :
    Chain.Stop c w = Outcome.returned (c,
      { chans := w.chans.set i ChanState.closed,
        calls := w.calls ++ [Call.closeChan i] ++
          (match c.conn with
           | some conn => [Call.connClose conn]
           | none => []) }) := by
  cases hconn : c.conn <;>
    simp [Chain.Stop, goClose, hstop, hopen, hconn, World.log]

/-- Result of `Chain.Stop` on a closed stop channel. -/
theorem Stop_closed (c : Chain L W) (w : World) (i : Nat) (hstop : c.stop = some i)
    (hclosed : w.chans[i]? = some ChanState.closed) :
    Chain.Stop c w = Outcome.panicked "close of closed channel" (c, w) := by
  simp [Chain.Stop, goClose, hstop, hclosed]

/-- Calls of `Chain.Stop` on a closed stop channel change nothing. -/
theorem stopTimes_closed (c : Chain L W) (w : World) (i : Nat) (hstop : c.stop = some i)
    (hclosed : w.chans[i]? = some ChanState.closed) (n : Nat) :
    stopTimes n (c, w) = (c, w) := by
  induction n with
  | zero => rfl
  | succ n ih =>
    show (match Chain.Stop c w with
      | Outcome.returned s1 => stopTimes n s1
      | Outcome.panicked _ s1 => stopTimes n s1) = (c, w)
    rw [Stop_closed c w i hstop hclosed]
    exact ih

/-- C5: `Chain.Stop` on a runtime whose stop channel is open closes that channel, once, and
then closes the connection if there is one (a nil connection is skipped and `Stop` still
returns). A `Stop` on an already closed channel panics with nothing changed and the
connection untouched. So however many times `Stop` is called, the channel is closed exactly
once and every call after the first panics. -/
theorem Stop_closes_once (c : Chain L W) (w : World) (i : Nat) (hstop : c.stop = some i) :
    (w.chans[i]? = some ChanState.opened →
      (∃ w1, Chain.Stop c w = Outcome.returned (c, w1) ∧
        w1.chans[i]? = some ChanState.closed ∧
        (∀ conn, c.conn = some conn →
          w1.calls = w.calls ++ [Call.closeChan i, Call.connClose conn]) ∧
        (c.conn = none → w1.calls = w.calls ++ [Call.closeChan i]) ∧
        w1.calls.count (Call.closeChan i) = w.calls.count (Call.closeChan i) + 1) ∧
      ∀ n, stopTimes (n + 1) (c, w) = (Chain.Stop c w).state ∧
        (stopTimes (n + 1) (c, w)).2.calls.count (Call.closeChan i)
          = w.calls.count (Call.closeChan i) + 1 ∧
        ∃ msg, Chain.Stop (stopTimes (n + 1) (c, w)).1 (stopTimes (n + 1) (c, w)).2
          = Outcome.panicked msg (stopTimes (n + 1) (c, w))) ∧
    (w.chans[i]? = some ChanState.closed →
      Chain.Stop c w = Outcome.panicked "close of closed channel" (c, w)) := by
  refine ⟨?_, Stop_closed c w i hstop⟩
  intro hopen
  have hlt : i < w.chans.length := by
    rcases Nat.lt_or_ge i w.chans.length with h | h
    · exact h
    · rw [List.getElem?_eq_none h] at hopen
      cases hopen
  have hret := Stop_opened c w i hstop hopen
  have hcl : (w.chans.set i ChanState.closed)[i]? = some ChanState.closed :=
    List.getElem?_set_self hlt
  have hcount : ∀ tail : List Call, (∀ x ∈ tail, x ≠ Call.closeChan i) →
      (w.calls ++ [Call.closeChan i] ++ tail).count (Call.closeChan i)
        = w.calls.count (Call.closeChan i) + 1 := by
    intro tail htail
    rw [List.count_append, List.count_append, List.count_singleton_self,
      List.count_eq_zero.mpr (fun hmem => htail _ hmem rfl)]
  have hcount' : (w.calls ++ [Call.closeChan i] ++
        (match c.conn with
         | some conn => [Call.connClose conn]
         | none => [])).count (Call.closeChan i) = w.calls.count (Call.closeChan i) + 1 := by
    apply hcount
    intro x hx
    cases hconn : c.conn with
    | none => simp [hconn] at hx
    | some conn =>
      simp [hconn] at hx
      subst hx
      simp
  refine ⟨⟨_, hret, hcl, ?_, ?_, hcount'⟩, ?_⟩
  · intro conn hconn
    simp [hconn]
  · intro hconn
    simp [hconn]
  · intro n
    have hstep : stopTimes (n + 1) (c, w) = (Chain.Stop c w).state := by
      show (match Chain.Stop c w with
        | Outcome.returned s1 => stopTimes n s1
        | Outcome.panicked _ s1 => stopTimes n s1) = (Chain.Stop c w).state
      rw [hret]
      exact stopTimes_closed c _ i hstop hcl n
    rw [hstep, hret]
    exact ⟨rfl, hcount', "close of closed channel", Stop_closed c _ i hstop hcl⟩

end

/-- Instance of `Stop_closes_once`: three calls of `Stop` on a freshly wired runtime close
stop channel 0 once and close connection 3 once. -/
theorem Stop_closes_once_witness :
    (sampleChain (sampleConfig false 0 1 0 0)).stop = some 0 ∧
    sampleWorld.chans[0]? = some ChanState.opened ∧
    (stopTimes 3 (sampleChain (sampleConfig false 0 1 0 0), sampleWorld)).2.calls
      = [Call.makeChan 0, Call.closeChan 0, Call.connClose 3] ∧
    (stopTimes (2 + 1) (sampleChain (sampleConfig false 0 1 0 0), sampleWorld)).2.calls.count
        (Call.closeChan 0) = sampleWorld.calls.count (Call.closeChan 0) + 1 :=
  ⟨rfl, rfl, rfl,
    (((Stop_closes_once (sampleChain (sampleConfig false 0 1 0 0)) sampleWorld 0 rfl).1
      rfl).2 2).2.1⟩


section
variable {L W R : Type}

/-- The chain `Chain.Stop` leaves is the chain it was called on. -/
theorem Stop_chain (c : Chain L W) (w : World) : (Chain.Stop c w).state.1 = c := by
  unfold Chain.Stop
  cases goClose c.stop w with
  | panicked msg w1 => rfl
  | returned w1 =>
    cases c.conn with
    | none => rfl
    | some conn => rfl

/-- C9: `Id()` and `Name()` return the identifier and the name of the configuration the
chain was built from; `SetRouter`, `Start` and `Stop` leave both unchanged; and `SetRouter`
registers the writer with the router under the identifier `Id()` returns, then hands that
router to the listener. -/
theorem Chain_identity_fixed (d : Deps L W R) (c : Chain L W) (r : R) (w : World) :
    (c.Id = c.cfg.Id ∧ c.Name = c.cfg.Name) ∧
    (∀ chainCfg logger sysErr m w0 c0,
      (InitializeChain d chainCfg logger sysErr m w0).1.1 = some c0 →
      c0.Id = chainCfg.Id ∧ c0.Name = chainCfg.Name) ∧
    ((Chain.SetRouter d c r w).1.1.Id = c.Id ∧ (Chain.SetRouter d c r w).1.1.Name = c.Name) ∧
    ((Chain.Start d c w).1.2.Id = c.Id ∧ (Chain.Start d c w).1.2.Name = c.Name) ∧
    ((Chain.Stop c w).state.1.Id = c.Id ∧ (Chain.Stop c w).state.1.Name = c.Name) ∧
    (Chain.SetRouter d c r w).1.2 = d.routerListen r c.Id c.writer ∧
    (Chain.SetRouter d c r w).1.1.listener =
      d.listenerSetRouter c.listener (Chain.SetRouter d c r w).1.2 ∧
    (Chain.SetRouter d c r w).1.1.writer = c.writer ∧
    (Chain.SetRouter d c r w).2.calls =
      w.calls ++ [Call.routerListen c.Id, Call.listenerSetRouter] := by
  refine ⟨⟨rfl, rfl⟩, ?_, ⟨rfl, rfl⟩, ?_, ?_, rfl, rfl, rfl, ?_⟩
  · intro chainCfg logger sysErr m w0 c0 h
    rcases InitializeChain_shape d chainCfg logger sysErr m w0 with ⟨err, he⟩ | hs
    · rw [he] at h; cases h
    · obtain ⟨kp, cfg1, bs, cfg2, -, -, -, -, -, -, -, hret⟩ := hs
      rw [hret] at h
      cases h
      exact ⟨rfl, rfl⟩
  · have hcfg : (Chain.Start d c w).1.2.cfg = c.cfg := by
      unfold Chain.Start
      rcases hl : d.listenerStart c.listener with ⟨_ | err, l⟩
      · rcases hw : d.writerStart c.writer with ⟨_ | err, x⟩ <;> rfl
      · rfl
    exact ⟨congrArg ChainConfig.Id hcfg, congrArg ChainConfig.Name hcfg⟩
  · rw [Stop_chain]
    exact ⟨rfl, rfl⟩
  · simp [Chain.SetRouter, World.log, Chain.Id]

end

/-- Instance of `Chain_identity_fixed`: the runtime built for chain 5, "klaytn". -/
theorem Chain_identity_fixed_witness :
    (InitializeChain (sampleDeps (sampleConfig false 0 1 0 0) 100 50 [] false)
        (sampleChainConfig false) 0 none none World.empty).1.1
      = some (sampleChain ((sampleConfig false 0 1 0 0).setStartBlock 100)) ∧
    (sampleChain ((sampleConfig false 0 1 0 0).setStartBlock 100)).Id = 5 ∧
    (sampleChain ((sampleConfig false 0 1 0 0).setStartBlock 100)).Name = "klaytn" :=
  ⟨rfl,
    ((Chain_identity_fixed (sampleDeps (sampleConfig false 0 1 0 0) 100 50 [] false)
      (sampleChain ((sampleConfig false 0 1 0 0).setStartBlock 100)) [] World.empty).2.1
      (sampleChainConfig false) 0 none none World.empty _ rfl)⟩

end ChainBridge
